import Mathlib

/-!
A shallow embedding in Lean 4 of the codex TUI statusline module
(`src/codex-rs/tui/src/statusline/`): the color/style data model
(`style.rs`), the configuration (`config.rs`), the renderer
(`renderer.rs`), the context and usage segment collectors
(`segments/context.rs`, `segments/usage.rs`), a structured-document
serialization model for the serde derives, and the color picker
(`color_picker.rs`).  Rust `f64` arithmetic is modelled exactly by
rationals together with IEEE-754 binary64 round-to-nearest-even rounding
(the values of interest all lie in the normal range).  Machine integers
are modelled as `Nat`/`Int`; the `u8` payloads of colors are `Nat` and
the narrowing casts of the source are explicit (`% 256`, saturation).
-/

/-! ## Exact model of `f64` arithmetic

The Rust source computes percentages and formatted token counts with
`f64`.  A binary64 value is a (dyadic) rational; rounding a real to the
nearest binary64 value is exact rational arithmetic.  `Rq` is an
unnormalized fraction `num / den` with `den > 0` by construction, kept
in plain `Int` operations so that the kernel can evaluate everything.
-/

/-- Fuel-based floor of log base 2 (structural recursion so that the
kernel can evaluate it; `log2F fuel n` is exact for `n < 2 ^ fuel`). -/
def log2F : Nat → Nat → Nat
  | 0, _ => 0
  | fuel+1, n => if n ≤ 1 then 0 else 1 + log2F fuel (n / 2)

/-- Floor of log base 2, with enough fuel for every number below `2 ^ 1000`. -/
def nlog2 (n : Nat) : Nat := log2F 1000 n

/-- Unnormalized rational number: the value `num / den`, with `den > 0`
maintained by every constructor below. -/
structure Rq where
  num : Int
  den : Int
  deriving DecidableEq

/-- Embed an integer as an `Rq`. -/
def Rq.ofInt (i : Int) : Rq := ⟨i, 1⟩

/-- Product of two fractions. -/
def Rq.mul (a b : Rq) : Rq := ⟨a.num * b.num, a.den * b.den⟩

/-- Quotient of two fractions (keeps the denominator positive). -/
def Rq.div (a b : Rq) : Rq :=
  if b.num < 0 then ⟨-(a.num * b.den), a.den * (-b.num)⟩
  else ⟨a.num * b.den, a.den * b.num⟩

/-- Comparison `a ≤ b` by cross multiplication (positive denominators). -/
def Rq.ble (a b : Rq) : Bool := decide (a.num * b.den ≤ b.num * a.den)

/-- Is the value negative? -/
def Rq.isNeg (a : Rq) : Bool := decide (a.num < 0)

/-- Is the value zero? -/
def Rq.isZero (a : Rq) : Bool := decide (a.num = 0)

/-- Negation. -/
def Rq.neg (a : Rq) : Rq := ⟨-a.num, a.den⟩

/-- Floor of a fraction as an integer. -/
def Rq.floor (a : Rq) : Int := Int.fdiv a.num a.den

/-- Round to the nearest integer, ties to even. -/
def Rq.roundHalfEven (a : Rq) : Int :=
  let f := a.floor
  let r := a.num - f * a.den
  if 2 * r < a.den then f
  else if a.den < 2 * r then f + 1
  else if f % 2 = 0 then f else f + 1

/-- The power of two `2 ^ e` as a fraction, for an integer exponent. -/
def pow2Q (e : Int) : Rq :=
  if 0 ≤ e then ⟨(2 ^ e.toNat : Nat), 1⟩ else ⟨1, (2 ^ (-e).toNat : Nat)⟩

/-- Floor of log base 2 of a positive fraction. -/
def Rq.ilog2 (a : Rq) : Int :=
  let e0 : Int := (nlog2 a.num.natAbs : Int) - (nlog2 a.den.natAbs : Int)
  if (pow2Q (e0 + 1)).ble a then e0 + 1
  else if (pow2Q e0).ble a then e0
  else e0 - 1

/-- Round a positive fraction to the nearest IEEE-754 binary64 value
(round to nearest, ties to even; 53 significant bits, normal range). -/
def roundPosF64 (a : Rq) : Rq :=
  let e := a.ilog2
  let scale := pow2Q (52 - e)
  let m := (a.mul scale).roundHalfEven
  ⟨m * scale.den, scale.num⟩

/-- Round any fraction to the nearest IEEE-754 binary64 value. -/
def roundF64 (a : Rq) : Rq :=
  if a.isZero then ⟨0, 1⟩
  else if a.isNeg then (roundPosF64 a.neg).neg
  else roundPosF64 a

/-- Rust `f64` division: exact quotient, then binary64 rounding. -/
def divF64 (a b : Rq) : Rq := roundF64 (a.div b)

/-- Rust `f64` multiplication: exact product, then binary64 rounding. -/
def mulF64 (a b : Rq) : Rq := roundF64 (a.mul b)

/-- Rust `as i64`-style truncation toward zero of a fraction. -/
def Rq.trunc (a : Rq) : Int := if a.isNeg then -((a.neg).floor) else a.floor

/-- Rust `v as i64` on an `f64`: truncate toward zero, saturating to the
`i64` range. -/
def f64toI64 (a : Rq) : Int :=
  let t := a.trunc
  if t < -(2 ^ 63) then -(2 ^ 63) else if t > 2 ^ 63 - 1 then 2 ^ 63 - 1 else t

/-- Rust `v as u8` on an `f64`: truncate toward zero, saturating to `0 ..= 255`. -/
def f64toU8 (a : Rq) : Nat :=
  (a.trunc.toNat).min 255

/-- Rust `i64 as f64` conversion (round to nearest). -/
def intToF64 (i : Int) : Rq := roundF64 (Rq.ofInt i)

/-- Rust `format!("{v:.1}")` of a binary64 value: the exact value is
rounded to one decimal digit, ties to even. -/
def fmtPrec1 (a : Rq) : String :=
  if a.isNeg then "-" ++ fmtPrec1Core a.neg else fmtPrec1Core a
where
  /-- Format a nonnegative value with one decimal digit. -/
  fmtPrec1Core (a : Rq) : String :=
    let n := (a.mul ⟨10, 1⟩).roundHalfEven
    toString (n / 10) ++ "." ++ toString (n % 10)

/-- Rust `format!("{v:.0}")` of a binary64 value: the exact value is
rounded to an integer, ties to even (a negative sign is kept, as Rust
prints `-0` for small negative values). -/
def fmtPrec0 (a : Rq) : String :=
  if a.isNeg then "-" ++ toString ((a.neg).roundHalfEven) else toString a.roundHalfEven

/-! ## Color and style data model (`style.rs`) -/

/-- The `ratatui::style::Color` values reachable from this module
(named ANSI colors, `Indexed`, and `Rgb`).  This is the platform
rendering primitive the statusline targets. -/
inductive RColor where
  | black | red | green | yellow | blue | magenta | cyan | white
  | gray | darkGray
  | lightRed | lightGreen | lightYellow | lightBlue | lightMagenta | lightCyan
  | reset
  | indexed (n : Nat)
  | rgb (r g b : Nat)
  deriving DecidableEq

/-- The `StyleMode` enum of `style.rs`: Plain, NerdFont (default), Powerline. -/
inductive StyleMode where
  | plain
  | nerdFont
  | powerline
  deriving DecidableEq

/-- The `AnsiColor` enum of `style.rs`: 16-color (`Color16 { c16 }`),
256-color (`Color256 { c256 }`), and RGB (`Rgb { r, g, b }`) variants.
The `u8` payloads are modelled as `Nat`; values produced by the program
are always `< 256`. -/
inductive AnsiColor where
  | color16 (c16 : Nat)
  | color256 (c256 : Nat)
  | rgb (r g b : Nat)
  deriving DecidableEq

/-- `AnsiColor::c16` of `style.rs`. -/
def AnsiColor.c16 (code : Nat) : AnsiColor := .color16 code

/-- `AnsiColor::c256` of `style.rs`. -/
def AnsiColor.c256 (code : Nat) : AnsiColor := .color256 code

/-- `AnsiColor::to_ratatui_color` of `style.rs`: total conversion to the
renderable color; 16-color codes above 15 fall back to `Indexed`. -/
def AnsiColor.to_ratatui_color : AnsiColor → RColor
  | .color16 c16 =>
    match c16 with
    | 0 => .black
    | 1 => .red
    | 2 => .green
    | 3 => .yellow
    | 4 => .blue
    | 5 => .magenta
    | 6 => .cyan
    | 7 => .white
    | 8 => .darkGray
    | 9 => .lightRed
    | 10 => .lightGreen
    | 11 => .lightYellow
    | 12 => .lightBlue
    | 13 => .lightMagenta
    | 14 => .lightCyan
    | 15 => .gray
    | _ => .indexed c16
  | .color256 c256 => .indexed c256
  | .rgb r g b => .rgb r g b

/-- The `IconConfig` struct of `style.rs`: a plain (emoji) icon and a
Nerd Font icon. -/
structure IconConfig where
  plain : String
  nerd_font : String
  deriving DecidableEq

/-- `IconConfig::get` of `style.rs`: resolve the icon by style mode. -/
def IconConfig.get (ic : IconConfig) (mode : StyleMode) : String :=
  match mode with
  | .plain => ic.plain
  | .nerdFont | .powerline => ic.nerd_font

/-- The `ColorConfig` struct of `style.rs`: independently optional icon,
text and background colors (`None` means "inherit terminal default"). -/
structure ColorConfig where
  icon : Option AnsiColor
  text : Option AnsiColor
  background : Option AnsiColor
  deriving DecidableEq

/-- `ColorConfig::icon_color` of `style.rs`. -/
def ColorConfig.icon_color (cc : ColorConfig) : Option RColor :=
  cc.icon.map AnsiColor.to_ratatui_color

/-- `ColorConfig::text_color` of `style.rs`. -/
def ColorConfig.text_color (cc : ColorConfig) : Option RColor :=
  cc.text.map AnsiColor.to_ratatui_color

/-- `ColorConfig::background_color` of `style.rs`. -/
def ColorConfig.background_color (cc : ColorConfig) : Option RColor :=
  cc.background.map AnsiColor.to_ratatui_color

/-- The `TextStyleConfig` struct of `style.rs`. -/
structure TextStyleConfig where
  text_bold : Bool
  deriving DecidableEq

/-- The separator constants of `style.rs` (`separators::SIMPLE`). -/
def separators.SIMPLE : String := " │ "

/-- The separator constants of `style.rs` (`separators::POWERLINE`). -/
def separators.POWERLINE : String := ""

/-- The separator constants of `style.rs` (`separators::POWERLINE_THIN`). -/
def separators.POWERLINE_THIN : String := ""

/-- The `POWERLINE_ARROW` constant of `renderer.rs` (U+E0B0). -/
def POWERLINE_ARROW : String := ""

/-! ## Segment protocol (`segment.rs` is declared in `mod.rs` but its
source file is not part of the provided sources; the data shapes are
modelled from the spec) -/

/-- Modelled from the spec: `SegmentId`, the closed enum of the five
segment kinds {Model, Directory, Git, Context, Usage} (the file
`segment.rs` is missing from the sources; §3 of the spec fixes the
enum and its cardinality). -/
inductive SegmentId where
  | model
  | directory
  | git
  | context
  | usage
  deriving DecidableEq

/-- Insert into a string-to-string mapping with unique keys (the
`HashMap::insert` replace-on-collision semantics; the spec declares the
metadata key set unique and its order irrelevant). -/
def mdInsert (m : List (String × String)) (k v : String) : List (String × String) :=
  (k, v) :: m.filter (fun p => p.1 != k)

/-- Modelled from the spec: `SegmentData` of the missing `segment.rs` —
transient per-render payload with `primary`, `secondary` (empty =
absent) and a unique-keyed string-to-string `metadata` mapping. -/
structure SegmentData where
  primary : String
  secondary : String
  metadata : List (String × String)
  deriving DecidableEq

/-- Modelled from the spec: `SegmentData::new`, the collector
constructor (primary text only). -/
def SegmentData.new (primary : String) : SegmentData := ⟨primary, "", []⟩

/-- Modelled from the spec: `SegmentData::with_secondary` builder. -/
def SegmentData.with_secondary (d : SegmentData) (s : String) : SegmentData :=
  { d with secondary := s }

/-- Modelled from the spec: `SegmentData::with_metadata` builder
(inserts one key/value pair into the metadata mapping). -/
def SegmentData.with_metadata (d : SegmentData) (k v : String) : SegmentData :=
  { d with metadata := mdInsert d.metadata k v }

/-! ## Configuration (`config.rs`) -/

/-- A structured document value (the shape serde serializes into; the
on-disk TOML encoding is an external collaborator).  `num` carries the
`u8` payloads of colors. -/
inductive Json where
  | num (n : Nat)
  | str (s : String)
  | bool (b : Bool)
  | obj (fields : List (String × Json))

/-- The `SegmentItemConfig` struct of `config.rs`: per-segment id,
enabled flag, icon, colors, text styles and free-form options. -/
structure SegmentItemConfig where
  id : SegmentId
  enabled : Bool
  icon : IconConfig
  colors : ColorConfig
  styles : TextStyleConfig
  options : List (String × Json)

/-- The `SegmentsConfig` struct of `config.rs`: one `SegmentItemConfig`
per segment kind. -/
structure SegmentsConfig where
  model : SegmentItemConfig
  directory : SegmentItemConfig
  git : SegmentItemConfig
  context : SegmentItemConfig
  usage : SegmentItemConfig

/-- The `CxLineConfig` struct of `config.rs`: top-level statusline
configuration. -/
structure CxLineConfig where
  enabled : Bool
  theme : String
  style : StyleMode
  separator : String
  segments : SegmentsConfig

/-- `CxLineConfig::get_segment_config` of `config.rs`: total O(1) lookup
by segment id. -/
def CxLineConfig.get_segment_config (c : CxLineConfig) (id : SegmentId) : SegmentItemConfig :=
  match id with
  | .model => c.segments.model
  | .directory => c.segments.directory
  | .git => c.segments.git
  | .context => c.segments.context
  | .usage => c.segments.usage

/-! ## Render model (`renderer.rs`)

`ratatui`'s `Span`/`Style` are the abstract rendering primitives of the
host framework; only the constructors used by the renderer are
modelled: foreground, background, and the BOLD and DIM modifiers. -/

/-- The fragment of `ratatui::style::Style` used by the renderer. -/
structure RStyle where
  fg : Option RColor
  bg : Option RColor
  bold : Bool
  dim : Bool
  deriving DecidableEq

/-- `Style::default()`: no colors, no modifiers. -/
def RStyle.empty : RStyle := ⟨none, none, false, false⟩

/-- `style.fg(c)`. -/
def RStyle.setFg (s : RStyle) (c : RColor) : RStyle := { s with fg := some c }

/-- `style.bg(c)`. -/
def RStyle.setBg (s : RStyle) (c : RColor) : RStyle := { s with bg := some c }

/-- `style.bold()`. -/
def RStyle.setBold (s : RStyle) : RStyle := { s with bold := true }

/-- The `if let Some(color) = … { style = style.fg(color) }` pattern. -/
def RStyle.applyFg (s : RStyle) : Option RColor → RStyle
  | some c => s.setFg c
  | none => s

/-- The `if let Some(color) = … { style = style.bg(color) }` pattern. -/
def RStyle.applyBg (s : RStyle) : Option RColor → RStyle
  | some c => s.setBg c
  | none => s

/-- A styled text span (`ratatui::text::Span`). -/
structure RSpan where
  content : String
  style : RStyle
  deriving DecidableEq

/-- `StatusLineRenderer::get_separator` of `renderer.rs`: a fixed
constant chosen by style mode (note: not the configured separator). -/
def get_separator (c : CxLineConfig) : String :=
  match c.style with
  | .powerline => separators.POWERLINE_THIN
  | _ => separators.SIMPLE

/-- `StatusLineRenderer::get_icon` of `renderer.rs`: the metadata key
`"dynamic_icon"` takes priority whenever present; otherwise the
statically configured icon resolved by style mode. -/
def get_icon (c : CxLineConfig) (id : SegmentId) (data : SegmentData) : String :=
  match data.metadata.lookup "dynamic_icon" with
  | some dynamic_icon => dynamic_icon
  | none => ((c.get_segment_config id).icon).get c.style

/-- The spans one segment contributes in `render_plain` (icon span if
the resolved icon is non-empty, primary, secondary if non-empty). -/
def plainSegmentSpans (c : CxLineConfig) (id : SegmentId) (data : SegmentData) : List RSpan :=
  let segment_config := c.get_segment_config id
  let icon := get_icon c id data
  let iconSpans : List RSpan :=
    if icon ≠ "" then
      [⟨icon ++ " ", RStyle.empty.applyFg segment_config.colors.icon_color⟩]
    else []
  let text_style :=
    let t := RStyle.empty.applyFg segment_config.colors.text_color
    if segment_config.styles.text_bold then t.setBold else t
  iconSpans ++ [⟨data.primary, text_style⟩] ++
    (if data.secondary ≠ "" then [⟨" " ++ data.secondary, text_style⟩] else [])

/-- The loop of `StatusLineRenderer::render_plain`, with the `first`
flag threaded through; disabled segments are skipped, a dim separator
span is emitted before every rendered segment but the first. -/
def renderPlainAux (c : CxLineConfig) : List (SegmentId × SegmentData) → Bool → List RSpan
  | [], _ => []
  | (id, data) :: rest, first =>
    if (c.get_segment_config id).enabled then
      (if first then [] else [⟨get_separator c, { RStyle.empty with dim := true }⟩]) ++
        plainSegmentSpans c id data ++ renderPlainAux c rest false
    else
      renderPlainAux c rest first

/-- `StatusLineRenderer::render_plain` of `renderer.rs`. -/
def render_plain (c : CxLineConfig) (segments : List (SegmentId × SegmentData)) : List RSpan :=
  renderPlainAux c segments true

/-- The combined segment style built by `render_powerline` (background,
foreground, bold). -/
def powerlineSegmentStyle (c : CxLineConfig) (id : SegmentId) : RStyle :=
  let segment_config := c.get_segment_config id
  let s := RStyle.empty.applyBg segment_config.colors.background_color
  let s := s.applyFg segment_config.colors.text_color
  if segment_config.styles.text_bold then s.setBold else s

/-- The spans one segment contributes in `render_powerline` (left pad,
icon with icon-color override, primary, secondary, right pad). -/
def powerlineSegmentSpans (c : CxLineConfig) (id : SegmentId) (data : SegmentData) : List RSpan :=
  let segment_config := c.get_segment_config id
  let segment_style := powerlineSegmentStyle c id
  let icon := get_icon c id data
  let iconSpans : List RSpan :=
    if icon ≠ "" then
      [⟨icon ++ " ", segment_style.applyFg segment_config.colors.icon_color⟩]
    else []
  [⟨" ", segment_style⟩] ++ iconSpans ++ [⟨data.primary, segment_style⟩] ++
    (if data.secondary ≠ "" then [⟨" " ++ data.secondary, segment_style⟩] else []) ++
    [⟨" ", segment_style⟩]

/-- The arrow span `render_powerline` emits between segment `i` and
segment `i+1`: the arrow glyph, foreground = current segment's
background color (unset = terminal default), background = next
segment's background color (unset = terminal default). -/
def arrowSpan (c : CxLineConfig) (id next_id : SegmentId) : RSpan :=
  let arrow_style :=
    (RStyle.empty.applyFg (c.get_segment_config id).colors.background_color).applyBg
      (c.get_segment_config next_id).colors.background_color
  ⟨POWERLINE_ARROW, arrow_style⟩

/-- The loop of `StatusLineRenderer::render_powerline` over the
filtered `enabled` list: `i` is the loop index, `rest` the remaining
enumerated elements (`rest = enabled.drop i` at every call), and the
arrow is emitted while `i < enabled.length - 1`, looking up the next
segment's configuration via `enabled[i + 1]`. -/
def renderPowerlineFrom (c : CxLineConfig) (enabled : List (SegmentId × SegmentData)) :
    Nat → List (SegmentId × SegmentData) → List RSpan
  | _, [] => []
  | i, (id, data) :: rest =>
    powerlineSegmentSpans c id data ++
      (if i < enabled.length - 1 then
        match enabled[i + 1]? with
        | some (next_id, _) => [arrowSpan c id next_id]
        | none => []
      else []) ++ renderPowerlineFrom c enabled (i + 1) rest

/-- The `enabled_segments` filter of `render_powerline`. -/
def powerlineEnabled (c : CxLineConfig) (segments : List (SegmentId × SegmentData)) :
    List (SegmentId × SegmentData) :=
  segments.filter (fun p => (c.get_segment_config p.1).enabled)

/-- `StatusLineRenderer::render_powerline` of `renderer.rs`. -/
def render_powerline (c : CxLineConfig) (segments : List (SegmentId × SegmentData)) : List RSpan :=
  let enabled := powerlineEnabled c segments
  renderPowerlineFrom c enabled 0 enabled

/-- `StatusLineRenderer::render_line` of `renderer.rs`: dispatch on the
style mode. -/
def render_line (c : CxLineConfig) (segments : List (SegmentId × SegmentData)) : List RSpan :=
  match c.style with
  | .powerline => render_powerline c segments
  | _ => render_plain c segments

/-! ## Runtime context and segment collectors (`mod.rs`,
`segments/context.rs`, `segments/usage.rs`) -/

/-- The `GitPreviewData` struct of `mod.rs`. -/
structure GitPreviewData where
  branch : String
  status : String
  ahead : Nat
  behind : Nat
  deriving DecidableEq

/-- The `StatusLineContext` struct of `mod.rs`: all runtime data a
render consumes (paths are modelled as strings; `rate_limit_percent` is
an `f64` value, modelled as an exact fraction). -/
structure StatusLineContext where
  model_name : String
  cwd : String
  context_used_tokens : Option Int
  context_window_size : Option Int
  rate_limit_percent : Option Rq
  rate_limit_resets_at : Option String
  git_preview : Option GitPreviewData

/-- `format_tokens` of `segments/context.rs`: counts at or above one
million format as one-decimal millions with suffix `M`, at or above one
thousand as one-decimal thousands with suffix `k`, and below that as
the literal integer.  The divisions are `f64` divisions and the one
decimal is Rust `{:.1}` formatting. -/
def format_tokens (tokens : Int) : String :=
  if tokens ≥ 1000000 then fmtPrec1 (divF64 (intToF64 tokens) (Rq.ofInt 1000000)) ++ "M"
  else if tokens ≥ 1000 then fmtPrec1 (divF64 (intToF64 tokens) (Rq.ofInt 1000)) ++ "k"
  else toString tokens

/-- The percentage computation of `ContextSegment::collect`:
`(used as f64 / window as f64 * 100.0) as i64`. -/
def contextPercent (used window : Int) : Int :=
  f64toI64 (mulF64 (divF64 (intToF64 used) (intToF64 window)) (Rq.ofInt 100))

/-- `ContextSegment::collect` of `segments/context.rs`: with both token
count and a positive window size, primary text is
`"{percent}% · {tokens} tokens"`; with only a token count,
`"{tokens} tokens"`; otherwise the placeholder `"- · - tokens"`. -/
def ContextSegment.collect (ctx : StatusLineContext) : Option SegmentData :=
  let used_percent : Option Int :=
    match ctx.context_used_tokens, ctx.context_window_size with
    | some used, some window =>
      if window > 0 then some (contextPercent used window) else none
    | _, _ => none
  match used_percent, ctx.context_used_tokens with
  | some percent, some used_tokens =>
    let percentage_display := toString percent ++ "%"
    let tokens_display := format_tokens used_tokens ++ " tokens"
    let display := percentage_display ++ " · " ++ tokens_display
    some ((((SegmentData.new display).with_metadata "percent" (toString percent)).with_metadata
      "tokens" (toString used_tokens)).with_metadata "type" "full")
  | none, some used_tokens =>
    let display := format_tokens used_tokens ++ " tokens"
    some (((SegmentData.new display).with_metadata "tokens" (toString used_tokens)).with_metadata
      "type" "tokens")
  | _, _ =>
    some ((((SegmentData.new "- · - tokens").with_metadata "percent" "-").with_metadata
      "tokens" "-").with_metadata "type" "placeholder")

/-- The glyph constants of `get_circle_icon` (Nerd Font Material Design
circle-slice icons, U+F0A9E ..= U+F0AA5). -/
def circleSlice (k : Nat) : String := String.mk [Char.ofNat (0xF0A9D + k)]

/-- `get_circle_icon` of `segments/usage.rs`: the utilization is scaled
by 100 (`f64` multiplication), truncated to `u8` (saturating), and
matched against eight buckets (`0..=12`, `13..=25`, `26..=37`,
`38..=50`, `51..=62`, `63..=75`, `76..=87`, rest), each with a distinct
circle-slice glyph.  `usagePct` is the `(utilization * 100.0) as u8`
computation. -/
def usagePct (utilization : Rq) : Nat := f64toU8 (mulF64 utilization (Rq.ofInt 100))

/-- `get_circle_icon` continued: bucket dispatch on the scaled value. -/
def get_circle_icon (utilization : Rq) : String :=
  let percent : Nat := usagePct utilization
  if percent ≤ 12 then circleSlice 1
  else if percent ≤ 25 then circleSlice 2
  else if percent ≤ 37 then circleSlice 3
  else if percent ≤ 50 then circleSlice 4
  else if percent ≤ 62 then circleSlice 5
  else if percent ≤ 75 then circleSlice 6
  else if percent ≤ 87 then circleSlice 7
  else circleSlice 8

/-- `UsageSegment::collect` of `segments/usage.rs`: requires a rate
limit percentage; the primary text is the zero-decimal percentage, the
metadata always receives `"percent"` and `"dynamic_icon"`, and a reset
time adds a secondary text and `"resets_at"`. -/
def UsageSegment.collect (ctx : StatusLineContext) : Option SegmentData :=
  match ctx.rate_limit_percent with
  | none => none
  | some percent =>
    let display := fmtPrec0 percent ++ "%"
    let dynamic_icon := get_circle_icon (divF64 percent (Rq.ofInt 100))
    let data := ((SegmentData.new display).with_metadata "percent"
      (fmtPrec1 percent)).with_metadata "dynamic_icon" dynamic_icon
    let data :=
      match ctx.rate_limit_resets_at with
      | some resets_at =>
        (data.with_secondary ("· " ++ resets_at)).with_metadata "resets_at" resets_at
      | none => data
    some data

/-! ## Serialization model (serde derives of `style.rs` / `config.rs`)

The serde derives serialize the configuration into a structured
document (persisted as TOML by an external collaborator).  `AnsiColor`
is `#[serde(untagged)]`: each variant serializes its named fields
(`c16`, `c256`, `r`/`g`/`b`) and deserialization tries the variants in
declaration order, so the variants are told apart by field names.
`Option` color fields are skipped when `None` and default to `None`
when missing; `text_bold` and the top-level fields default when
missing; `options` is skipped when empty. -/

/-- Field lookup in a serialized object. -/
def jLookup (fields : List (String × Json)) (k : String) : Option Json :=
  fields.lookup k

/-- Deserialize a `u8` (a number in `0 ..= 255`). -/
def deserializeU8 : Json → Option Nat
  | .num n => if n ≤ 255 then some n else none
  | _ => none

/-- Serialize an `AnsiColor` (untagged: named fields only). -/
def serializeAnsiColor : AnsiColor → Json
  | .color16 c16 => .obj [("c16", .num c16)]
  | .color256 c256 => .obj [("c256", .num c256)]
  | .rgb r g b => .obj [("r", .num r), ("g", .num g), ("b", .num b)]

/-- Try the `Color16 { c16 }` variant. -/
def deserializeColor16 : Json → Option AnsiColor
  | .obj fields => (jLookup fields "c16").bind (fun j => (deserializeU8 j).map .color16)
  | _ => none

/-- Try the `Color256 { c256 }` variant. -/
def deserializeColor256 : Json → Option AnsiColor
  | .obj fields => (jLookup fields "c256").bind (fun j => (deserializeU8 j).map .color256)
  | _ => none

/-- Try the `Rgb { r, g, b }` variant. -/
def deserializeRgb : Json → Option AnsiColor
  | .obj fields =>
    match (jLookup fields "r").bind deserializeU8, (jLookup fields "g").bind deserializeU8,
        (jLookup fields "b").bind deserializeU8 with
    | some r, some g, some b => some (.rgb r g b)
    | _, _, _ => none
  | _ => none

/-- Deserialize an `AnsiColor`: untagged, so the variants are tried in
declaration order and told apart by their field names. -/
def deserializeAnsiColor (j : Json) : Option AnsiColor :=
  match deserializeColor16 j with
  | some c => some c
  | none =>
    match deserializeColor256 j with
    | some c => some c
    | none => deserializeRgb j

/-- Serialize a `StyleMode` (`rename_all = "snake_case"`). -/
def serializeStyleMode : StyleMode → Json
  | .plain => .str "plain"
  | .nerdFont => .str "nerd_font"
  | .powerline => .str "powerline"

/-- Deserialize a `StyleMode`. -/
def deserializeStyleMode : Json → Option StyleMode
  | .str "plain" => some .plain
  | .str "nerd_font" => some .nerdFont
  | .str "powerline" => some .powerline
  | _ => none

/-- Modelled from the spec: `SegmentId` serializes as the segment's
snake-case name (the derive lives in the missing `segment.rs`; §6 of
the spec names the five segment keys). -/
def serializeSegmentId : SegmentId → Json
  | .model => .str "model"
  | .directory => .str "directory"
  | .git => .str "git"
  | .context => .str "context"
  | .usage => .str "usage"

/-- Modelled from the spec: deserialize a `SegmentId` by name; a
missing field falls back to the default id (`Model`). -/
def deserializeSegmentId : Json → Option SegmentId
  | .str "model" => some .model
  | .str "directory" => some .directory
  | .str "git" => some .git
  | .str "context" => some .context
  | .str "usage" => some .usage
  | _ => none

/-- Serialize an `IconConfig`. -/
def serializeIconConfig (ic : IconConfig) : Json :=
  .obj [("plain", .str ic.plain), ("nerd_font", .str ic.nerd_font)]

/-- Deserialize an `IconConfig` (both fields are required). -/
def deserializeIconConfig : Json → Option IconConfig
  | .obj fields =>
    match jLookup fields "plain", jLookup fields "nerd_font" with
    | some (.str p), some (.str nf) => some ⟨p, nf⟩
    | _, _ => none
  | _ => none

/-- Serialize an optional color field (`skip_serializing_if = "Option::is_none"`). -/
def serializeOptColor (name : String) : Option AnsiColor → List (String × Json)
  | some c => [(name, serializeAnsiColor c)]
  | none => []

/-- Deserialize an optional color field: missing means `None`
(`#[serde(default)]`), present-but-invalid is an error. -/
def deserializeOptColor (fields : List (String × Json)) (name : String) :
    Option (Option AnsiColor) :=
  match jLookup fields name with
  | none => some none
  | some j => (deserializeAnsiColor j).map some

/-- Serialize a `ColorConfig`. -/
def serializeColorConfig (cc : ColorConfig) : Json :=
  .obj (serializeOptColor "icon" cc.icon ++ serializeOptColor "text" cc.text ++
    serializeOptColor "background" cc.background)

/-- Deserialize a `ColorConfig`. -/
def deserializeColorConfig : Json → Option ColorConfig
  | .obj fields =>
    match deserializeOptColor fields "icon", deserializeOptColor fields "text",
        deserializeOptColor fields "background" with
    | some icon, some text, some background => some ⟨icon, text, background⟩
    | _, _, _ => none
  | _ => none

/-- Serialize a `TextStyleConfig`. -/
def serializeTextStyleConfig (ts : TextStyleConfig) : Json :=
  .obj [("text_bold", .bool ts.text_bold)]

/-- Deserialize a `TextStyleConfig` (`text_bold` defaults to `false`). -/
def deserializeTextStyleConfig : Json → Option TextStyleConfig
  | .obj fields =>
    match jLookup fields "text_bold" with
    | none => some ⟨false⟩
    | some (.bool b) => some ⟨b⟩
    | some _ => none
  | _ => none

/-- Serialize a `SegmentItemConfig` (`options` is skipped when empty). -/
def serializeSegmentItemConfig (sc : SegmentItemConfig) : Json :=
  .obj ([("id", serializeSegmentId sc.id), ("enabled", .bool sc.enabled),
    ("icon", serializeIconConfig sc.icon), ("colors", serializeColorConfig sc.colors),
    ("styles", serializeTextStyleConfig sc.styles)] ++
    (if sc.options.isEmpty then [] else [("options", .obj sc.options)]))

/-- Deserialize a `SegmentItemConfig`; every field has a serde default
(the per-segment config defaults come from the default theme and are
only consulted when a field is missing). -/
def deserializeSegmentItemConfig (dflt : SegmentItemConfig) : Json → Option SegmentItemConfig
  | .obj fields =>
    let idOpt : Option SegmentId :=
      match jLookup fields "id" with
      | none => some dflt.id
      | some j => deserializeSegmentId j
    let enabledOpt : Option Bool :=
      match jLookup fields "enabled" with
      | none => some true
      | some (.bool b) => some b
      | some _ => none
    let iconOpt : Option IconConfig :=
      match jLookup fields "icon" with
      | none => some (⟨"", ""⟩ : IconConfig)
      | some j => deserializeIconConfig j
    let colorsOpt : Option ColorConfig :=
      match jLookup fields "colors" with
      | none => some (⟨none, none, none⟩ : ColorConfig)
      | some j => deserializeColorConfig j
    let stylesOpt : Option TextStyleConfig :=
      match jLookup fields "styles" with
      | none => some (⟨false⟩ : TextStyleConfig)
      | some j => deserializeTextStyleConfig j
    let optionsOpt : Option (List (String × Json)) :=
      match jLookup fields "options" with
      | none => some []
      | some (.obj l) => some l
      | some _ => none
    match idOpt, enabledOpt, iconOpt, colorsOpt, stylesOpt, optionsOpt with
    | some id, some enabled, some icon, some colors, some styles, some options =>
      some ⟨id, enabled, icon, colors, styles, options⟩
    | _, _, _, _, _, _ => none
  | _ => none

/-- `ColorConfig::new` of `style.rs` (icon and text colors, no background). -/
def ColorConfig.new (icon text : AnsiColor) : ColorConfig := ⟨some icon, some text, none⟩

/-- `ThemePresets::get_default` of `themes.rs`: the built-in "default"
theme (the value serde consults for missing `segments` fields). -/
def ThemePresets.get_default : CxLineConfig :=
  { enabled := true
    theme := "default"
    style := .plain
    separator := " │ "
    segments :=
      { model :=
          { id := .model, enabled := true
            icon := ⟨"🤖", String.mk [Char.ofNat 0xE26D]⟩
            colors := ColorConfig.new (.color16 14) (.color16 14)
            styles := ⟨false⟩, options := [] }
        directory :=
          { id := .directory, enabled := true
            icon := ⟨"📁", String.mk [Char.ofNat 0xF024B]⟩
            colors := ColorConfig.new (.color16 11) (.color16 10)
            styles := ⟨false⟩, options := [] }
        git :=
          { id := .git, enabled := true
            icon := ⟨"🌿", String.mk [Char.ofNat 0xF02A2]⟩
            colors := ColorConfig.new (.color16 12) (.color16 12)
            styles := ⟨false⟩, options := [] }
        context :=
          { id := .context, enabled := true
            icon := ⟨"⚡️", String.mk [Char.ofNat 0xF49B]⟩
            colors := ColorConfig.new (.color16 13) (.color16 13)
            styles := ⟨false⟩, options := [] }
        usage :=
          { id := .usage, enabled := true
            icon := ⟨"📊", String.mk [Char.ofNat 0xF0A9E]⟩
            colors := ColorConfig.new (.color16 14) (.color16 14)
            styles := ⟨false⟩, options := [] } } }

/-- Serialize a `SegmentsConfig` (all five fields always present). -/
def serializeSegmentsConfig (sc : SegmentsConfig) : Json :=
  .obj [("model", serializeSegmentItemConfig sc.model),
    ("directory", serializeSegmentItemConfig sc.directory),
    ("git", serializeSegmentItemConfig sc.git),
    ("context", serializeSegmentItemConfig sc.context),
    ("usage", serializeSegmentItemConfig sc.usage)]

/-- Deserialize a `SegmentsConfig`; each missing field defaults to the
default theme's entry for that segment. -/
def deserializeSegmentsConfig : Json → Option SegmentsConfig
  | .obj fields =>
    let dseg := ThemePresets.get_default.segments
    let modelOpt :=
      match jLookup fields "model" with
      | none => some dseg.model
      | some j => deserializeSegmentItemConfig dseg.model j
    let directoryOpt :=
      match jLookup fields "directory" with
      | none => some dseg.directory
      | some j => deserializeSegmentItemConfig dseg.directory j
    let gitOpt :=
      match jLookup fields "git" with
      | none => some dseg.git
      | some j => deserializeSegmentItemConfig dseg.git j
    let contextOpt :=
      match jLookup fields "context" with
      | none => some dseg.context
      | some j => deserializeSegmentItemConfig dseg.context j
    let usageOpt :=
      match jLookup fields "usage" with
      | none => some dseg.usage
      | some j => deserializeSegmentItemConfig dseg.usage j
    match modelOpt, directoryOpt, gitOpt, contextOpt, usageOpt with
    | some model, some directory, some git, some context, some usage =>
      some ⟨model, directory, git, context, usage⟩
    | _, _, _, _, _ => none
  | _ => none

/-- Serialize a `CxLineConfig` (all fields always present). -/
def serializeCxLineConfig (c : CxLineConfig) : Json :=
  .obj [("enabled", .bool c.enabled), ("theme", .str c.theme),
    ("style", serializeStyleMode c.style), ("separator", .str c.separator),
    ("segments", serializeSegmentsConfig c.segments)]

/-- Deserialize a `CxLineConfig` (serde defaults: `enabled = true`,
`theme = "cometix"`, `style = NerdFont`, `separator = " │ "`,
`segments` from the default theme). -/
def deserializeCxLineConfig : Json → Option CxLineConfig
  | .obj fields =>
    let enabledOpt :=
      match jLookup fields "enabled" with
      | none => some true
      | some (.bool b) => some b
      | some _ => none
    let themeOpt :=
      match jLookup fields "theme" with
      | none => some "cometix"
      | some (.str s) => some s
      | some _ => none
    let styleOpt :=
      match jLookup fields "style" with
      | none => some StyleMode.nerdFont
      | some j => deserializeStyleMode j
    let separatorOpt :=
      match jLookup fields "separator" with
      | none => some " │ "
      | some (.str s) => some s
      | some _ => none
    let segmentsOpt :=
      match jLookup fields "segments" with
      | none => some ThemePresets.get_default.segments
      | some j => deserializeSegmentsConfig j
    match enabledOpt, themeOpt, styleOpt, separatorOpt, segmentsOpt with
    | some enabled, some theme, some style, some separator, some segments =>
      some ⟨enabled, theme, style, separator, segments⟩
    | _, _, _, _, _ => none
  | _ => none

/-! ## Color picker (`color_picker.rs`) -/

/-- The `ColorPickerMode` enum: the three sub-modes in cyclic order. -/
inductive ColorPickerMode where
  | basic16
  | extended256
  | rgbInput
  deriving DecidableEq

/-- The `RgbField` enum: the four text-entry fields of the RGB sub-mode. -/
inductive RgbField where
  | red
  | green
  | blue
  | hex
  deriving DecidableEq

/-- The `RgbInput` struct: the four editable strings and the focus. -/
structure RgbInput where
  r : String
  g : String
  b : String
  hex : String
  editing_field : RgbField
  deriving DecidableEq

/-- `RgbInput::default`. -/
def RgbInput.default : RgbInput := ⟨"", "", "", "", .red⟩

/-- The `ColorTarget` enum: which color field the picker edits. -/
inductive ColorTarget where
  | iconColor
  | textColor
  | backgroundColor
  deriving DecidableEq

/-- The `ColorPicker` struct: open flag, sub-mode, per-grid selected
indices, RGB text entry, committed color, target field, and the cached
column counts fed back from rendering. -/
structure ColorPicker where
  is_open : Bool
  mode : ColorPickerMode
  selected_basic : Nat
  selected_extended : Nat
  rgb_input : RgbInput
  current_color : Option AnsiColor
  target_field : ColorTarget
  cached_basic_cols : Nat
  cached_extended_cols : Nat
  deriving DecidableEq

/-- `ColorPicker::default`. -/
def ColorPicker.default : ColorPicker :=
  ⟨false, .basic16, 0, 0, RgbInput.default, none, .iconColor, 8, 8⟩

/-- `ColorPicker::open` (named `openPicker` here because `open` is a
Lean keyword): opens on the Basic16 sub-mode with both selections and
the text entry reset, and the committed color set to the given one. -/
def ColorPicker.openPicker (p : ColorPicker) (target : ColorTarget)
    (current : Option AnsiColor) : ColorPicker :=
  { p with
    is_open := true
    target_field := target
    mode := .basic16
    selected_basic := 0
    selected_extended := 0
    rgb_input := RgbInput.default
    current_color := current }

/-- `ColorPicker::close`. -/
def ColorPicker.close (p : ColorPicker) : ColorPicker := { p with is_open := false }

/-- `ColorPicker::cycle_mode`: Basic16 → Extended256 → RgbInput → Basic16. -/
def ColorPicker.cycle_mode (p : ColorPicker) : ColorPicker :=
  { p with mode :=
      match p.mode with
      | .basic16 => .extended256
      | .extended256 => .rgbInput
      | .rgbInput => .basic16 }

/-- `ColorPicker::move_horizontal`: in the grid sub-modes the selection
wraps circularly at the palette ends and the current color is updated to
the color at the new index (`usize as u8` is the explicit `% 256`); in
the RGB sub-mode the focused field cycles. -/
def ColorPicker.move_horizontal (p : ColorPicker) (delta : Int) : ColorPicker :=
  match p.mode with
  | .basic16 =>
    let current := p.selected_basic
    let new_selection :=
      if delta > 0 then (if current < 15 then current + 1 else 0)
      else if current > 0 then current - 1
      else 15
    { p with
      selected_basic := new_selection
      current_color := some (AnsiColor.c16 (new_selection % 256)) }
  | .extended256 =>
    let current := p.selected_extended
    let new_selection :=
      if delta > 0 then (if current < 255 then current + 1 else 0)
      else if current > 0 then current - 1
      else 255
    { p with
      selected_extended := new_selection
      current_color := some (AnsiColor.c256 (new_selection % 256)) }
  | .rgbInput =>
    { p with rgb_input :=
        { p.rgb_input with editing_field :=
            match p.rgb_input.editing_field, decide (delta > 0) with
            | .red, true => .green
            | .green, true => .blue
            | .blue, true => .hex
            | .hex, true => .red
            | .red, false => .hex
            | .green, false => .red
            | .blue, false => .green
            | .hex, false => .blue } }

/-- `ColorPicker::move_vertical`: row/column arithmetic over the cached
column count; moving down clamps at the last row, moving up at row 0,
and the new index is `min(new_row * cols + col, N - 1)`; the current
color is updated to the color at the new index. -/
def ColorPicker.move_vertical (p : ColorPicker) (delta : Int) : ColorPicker :=
  match p.mode with
  | .basic16 =>
    let cols := p.cached_basic_cols
    let current_row := p.selected_basic / cols
    let current_col := p.selected_basic % cols
    let total_rows := (16 + cols - 1) / cols
    let new_row :=
      if delta > 0 then (if current_row + 1 < total_rows then current_row + 1 else current_row)
      else if current_row > 0 then current_row - 1
      else current_row
    let new_selection := min (new_row * cols + current_col) 15
    { p with
      selected_basic := new_selection
      current_color := some (AnsiColor.c16 (new_selection % 256)) }
  | .extended256 =>
    let cols := p.cached_extended_cols
    let current_row := p.selected_extended / cols
    let current_col := p.selected_extended % cols
    let total_rows := (256 + cols - 1) / cols
    let new_row :=
      if delta > 0 then (if current_row + 1 < total_rows then current_row + 1 else current_row)
      else if current_row > 0 then current_row - 1
      else current_row
    let new_selection := min (new_row * cols + current_col) 255
    { p with
      selected_extended := new_selection
      current_color := some (AnsiColor.c256 (new_selection % 256)) }
  | .rgbInput => p

/-- Rust `char::is_ascii_digit`. -/
def isAsciiDigit (c : Char) : Bool := decide ('0' ≤ c ∧ c ≤ '9')

/-- Rust `char::is_ascii_hexdigit`. -/
def isAsciiHexdigit (c : Char) : Bool :=
  isAsciiDigit c || decide ('a' ≤ c ∧ c ≤ 'f') || decide ('A' ≤ c ∧ c ≤ 'F')

/-- Rust `char::to_ascii_uppercase`. -/
def toAsciiUppercase (c : Char) : Char :=
  if decide ('a' ≤ c ∧ c ≤ 'z') then Char.ofNat (c.toNat - 32) else c

/-- Rust `String::pop` (drops the last character). -/
def strPop (s : String) : String := String.mk s.data.dropLast

/-- Rust `str::len` (UTF-8 byte length; the picker fields only ever
hold ASCII characters, one byte each). -/
def strLen (s : String) : Nat := s.utf8ByteSize

/-- Value of one hexadecimal digit. -/
def hexDigitVal (c : Char) : Option Nat :=
  if isAsciiDigit c then some (c.toNat - 48)
  else if decide ('a' ≤ c ∧ c ≤ 'f') then some (c.toNat - 97 + 10)
  else if decide ('A' ≤ c ∧ c ≤ 'F') then some (c.toNat - 65 + 10)
  else none

/-- Rust `u8::from_str_radix(s, 16)` on a two-character slice. -/
def parseHex2 : List Char → Option Nat
  | [c1, c2] => do
    let h ← hexDigitVal c1
    let l ← hexDigitVal c2
    pure (16 * h + l)
  | _ => none

/-- Value of one decimal digit. -/
def digitVal (c : Char) : Option Nat :=
  if isAsciiDigit c then some (c.toNat - 48) else none

/-- Rust `str::parse::<u8>()`: at least one digit, decimal value, error
above 255 (the picker fields only ever contain decimal digits, so the
sign-prefix forms never arise). -/
def parseU8 (s : String) : Option Nat :=
  match s.data with
  | [] => none
  | cs =>
    (cs.foldl (fun acc c => acc.bind (fun n => (digitVal c).map (fun d => 10 * n + d)))
      (some 0)).bind (fun n => if n ≤ 255 then some n else none)

/-- `ColorPicker::update_rgb_color`: if the hex field is non-empty with
exactly 6 characters and all three byte pairs parse, the color becomes
that RGB value; otherwise, if the three decimal fields all parse as
`u8`, the color becomes that RGB value; otherwise the current color is
left unchanged. -/
def ColorPicker.update_rgb_color (p : ColorPicker) : ColorPicker :=
  let hex := p.rgb_input.hex
  let hexResult : Option AnsiColor :=
    if ¬hex.isEmpty ∧ strLen hex = 6 then
      match parseHex2 (hex.data.take 2), parseHex2 ((hex.data.drop 2).take 2),
          parseHex2 ((hex.data.drop 4).take 2) with
      | some r, some g, some b => some (.rgb r g b)
      | _, _, _ => none
    else none
  match hexResult with
  | some c => { p with current_color := some c }
  | none =>
    match parseU8 p.rgb_input.r, parseU8 p.rgb_input.g, parseU8 p.rgb_input.b with
    | some r, some g, some b => { p with current_color := some (.rgb r g b) }
    | _, _, _ => p

/-- `ColorPicker::input_char`: outside the RGB sub-mode nothing
happens; otherwise the character is appended to the focused field only
if it passes that field's filter (decimal digit and length < 3 for
R/G/B; hex digit, uppercased, and length < 6 for Hex), and the current
color is recomputed. -/
def ColorPicker.input_char (p : ColorPicker) (c : Char) : ColorPicker :=
  if p.mode ≠ .rgbInput then p
  else
    let p :=
      match p.rgb_input.editing_field with
      | .red =>
        if strLen p.rgb_input.r < 3 ∧ isAsciiDigit c then
          { p with rgb_input := { p.rgb_input with r := p.rgb_input.r.push c } }
        else p
      | .green =>
        if strLen p.rgb_input.g < 3 ∧ isAsciiDigit c then
          { p with rgb_input := { p.rgb_input with g := p.rgb_input.g.push c } }
        else p
      | .blue =>
        if strLen p.rgb_input.b < 3 ∧ isAsciiDigit c then
          { p with rgb_input := { p.rgb_input with b := p.rgb_input.b.push c } }
        else p
      | .hex =>
        if strLen p.rgb_input.hex < 6 ∧ isAsciiHexdigit c then
          { p with rgb_input :=
              { p.rgb_input with hex := p.rgb_input.hex.push (toAsciiUppercase c) } }
        else p
    p.update_rgb_color

/-- `ColorPicker::backspace`: outside the RGB sub-mode nothing happens;
otherwise the focused field loses its last character and the current
color is recomputed. -/
def ColorPicker.backspace (p : ColorPicker) : ColorPicker :=
  if p.mode ≠ .rgbInput then p
  else
    let p :=
      match p.rgb_input.editing_field with
      | .red => { p with rgb_input := { p.rgb_input with r := strPop p.rgb_input.r } }
      | .green => { p with rgb_input := { p.rgb_input with g := strPop p.rgb_input.g } }
      | .blue => { p with rgb_input := { p.rgb_input with b := strPop p.rgb_input.b } }
      | .hex => { p with rgb_input := { p.rgb_input with hex := strPop p.rgb_input.hex } }
    p.update_rgb_color

/-- `ColorPicker::get_selected_color`. -/
def ColorPicker.get_selected_color (p : ColorPicker) : Option AnsiColor := p.current_color

/-! ## Spec-shaped reference definitions

These follow the wording of the specification; the theorems below
compare them with the definitions translated from the source. -/

/-- Spec-shaped powerline line: the enabled segments' span groups with
exactly one arrow span between each pair of consecutive segments (and
none after the last). -/
def powerlineSpansSpec (c : CxLineConfig) : List (SegmentId × SegmentData) → List RSpan
  | [] => []
  | [(id, data)] => powerlineSegmentSpans c id data
  | (id, data) :: (next_id, next_data) :: rest =>
    powerlineSegmentSpans c id data ++
      arrowSpan c id next_id :: powerlineSpansSpec c ((next_id, next_data) :: rest)

/-- The arrow spans of a powerline line: one per consecutive pair of
enabled segments. -/
def powerlineArrowsSpec (c : CxLineConfig) : List (SegmentId × SegmentData) → List RSpan
  | [] => []
  | [_] => []
  | (id, _) :: (next_id, next_data) :: rest =>
    arrowSpan c id next_id :: powerlineArrowsSpec c ((next_id, next_data) :: rest)

/-- Spec-shaped vertical navigation target row: moving down clamps at
the last row, moving up clamps at row 0. -/
def clampedRowSpec (delta : Int) (row total_rows : Nat) : Nat :=
  if delta > 0 then min (row + 1) (total_rows - 1) else row - 1

/-- Parse a 6-character hex string as an RRGGBB triple. -/
def parseHex6 (s : String) : Option (Nat × Nat × Nat) :=
  if strLen s = 6 then
    match parseHex2 (s.data.take 2), parseHex2 ((s.data.drop 2).take 2),
        parseHex2 ((s.data.drop 4).take 2) with
    | some r, some g, some b => some (r, g, b)
    | _, _, _ => none
  else none

/-- Spec-shaped current-color recomputation: the hex field takes
priority when it holds exactly 6 hex characters; otherwise the three
decimal fields must each parse as `0 ..= 255`; otherwise the previous
color is kept unchanged. -/
def rgbColorSpec (inp : RgbInput) (old : Option AnsiColor) : Option AnsiColor :=
  match parseHex6 inp.hex with
  | some (r, g, b) => some (.rgb r g b)
  | none =>
    match parseU8 inp.r, parseU8 inp.g, parseU8 inp.b with
    | some r, some g, some b => some (.rgb r g b)
    | _, _, _ => old

/-- Replace the configured icon of the Usage segment, leaving the rest
of the configuration unchanged. -/
def set_usage_icon (c : CxLineConfig) (ic : IconConfig) : CxLineConfig :=
  { c with segments := { c.segments with usage := { c.segments.usage with icon := ic } } }

/-- A `u8` payload is in range. -/
def wfAnsiColor : AnsiColor → Prop
  | .color16 c16 => c16 ≤ 255
  | .color256 c256 => c256 ≤ 255
  | .rgb r g b => r ≤ 255 ∧ g ≤ 255 ∧ b ≤ 255

instance : DecidablePred wfAnsiColor := fun c => by
  unfold wfAnsiColor; cases c <;> infer_instance

/-- An optional color payload is in range. -/
def wfOptColor : Option AnsiColor → Prop
  | none => True
  | some c => wfAnsiColor c

instance : DecidablePred wfOptColor := fun o =>
  match o with
  | none => isTrue trivial
  | some c => inferInstanceAs (Decidable (wfAnsiColor c))

/-- All color payloads of a `ColorConfig` are in range. -/
def wfColorConfig (cc : ColorConfig) : Prop :=
  wfOptColor cc.icon ∧ wfOptColor cc.text ∧ wfOptColor cc.background

instance : DecidablePred wfColorConfig := fun cc => by
  unfold wfColorConfig; infer_instance

/-- All color payloads of a `SegmentItemConfig` are in range. -/
def wfSegmentItemConfig (sc : SegmentItemConfig) : Prop := wfColorConfig sc.colors

instance : DecidablePred wfSegmentItemConfig := fun sc => by
  unfold wfSegmentItemConfig; infer_instance

/-- All color payloads of a `CxLineConfig` are in range (`u8` fields in
the Rust source). -/
def wfCxLineConfig (c : CxLineConfig) : Prop :=
  wfSegmentItemConfig c.segments.model ∧ wfSegmentItemConfig c.segments.directory ∧
    wfSegmentItemConfig c.segments.git ∧ wfSegmentItemConfig c.segments.context ∧
    wfSegmentItemConfig c.segments.usage

instance : DecidablePred wfCxLineConfig := fun c => by
  unfold wfCxLineConfig; infer_instance

/-! ## Concrete fixtures used by closed theorems -/

/-- A minimal segment entry: empty icons, no colors, not bold. -/
def bareItem (id : SegmentId) (enab : Bool) : SegmentItemConfig :=
  ⟨id, enab, ⟨"", ""⟩, ⟨none, none, none⟩, ⟨false⟩, []⟩

/-- A Plain-mode configuration whose configured separator is `"--"`,
with only the model and directory segments enabled. -/
def sepConfig : CxLineConfig :=
  ⟨true, "t", .plain, "--",
    ⟨bareItem .model true, bareItem .directory true, bareItem .git false,
      bareItem .context false, bareItem .usage false⟩⟩

/-- A NerdFont-mode configuration whose usage segment has the static
icons `"X"` (plain) and `"Y"` (nerd font). -/
def iconConfig : CxLineConfig :=
  ⟨true, "t", .nerdFont, " │ ",
    ⟨bareItem .model true, bareItem .directory true, bareItem .git true,
      bareItem .context true,
      ⟨.usage, true, ⟨"X", "Y"⟩, ⟨none, none, none⟩, ⟨false⟩, []⟩⟩⟩

/-- Segment data whose metadata carries a present-but-empty
`"dynamic_icon"` entry. -/
def emptyDynIconData : SegmentData := ⟨"p", "", [("dynamic_icon", "")]⟩

/-- A context with both token counts set (500000 of 1000000). -/
def ctxHalfMillion : StatusLineContext :=
  ⟨"m", "/w", some 500000, some 1000000, none, none, none⟩

/-- A context with 29 used tokens in a window of 100. -/
def ctx29of100 : StatusLineContext :=
  ⟨"m", "/w", some 29, some 100, none, none, none⟩

/-- A context with no token data at all. -/
def ctxNoTokens : StatusLineContext :=
  ⟨"m", "/w", none, none, none, none, none⟩

/-- A context with a 50% rate limit and a reset time. -/
def ctxUsage50 : StatusLineContext :=
  ⟨"m", "/w", none, none, some (Rq.ofInt 50), some "3pm", none⟩

/-- A picker state in the Basic16 sub-mode with selection 5 and a
partially typed red field. -/
def pickerAt5 : ColorPicker :=
  { ColorPicker.default with
    is_open := true
    selected_basic := 5
    rgb_input := ⟨"12", "", "", "", .red⟩
    current_color := some (AnsiColor.c16 5) }

/-- The eight circle-slice glyphs, in bucket order. -/
def circleGlyphs : List String :=
  [circleSlice 1, circleSlice 2, circleSlice 3, circleSlice 4,
    circleSlice 5, circleSlice 6, circleSlice 7, circleSlice 8]

/-- The picker's selection indices are valid for their palettes. -/
def pickerInv (p : ColorPicker) : Prop :=
  p.selected_basic < 16 ∧ p.selected_extended < 256

/-- A picker state in the RGB input sub-mode, focused on the hex field
with five hex characters already typed. -/
def pickerRgb : ColorPicker :=
  { ColorPicker.default with
    is_open := true
    mode := .rgbInput
    rgb_input := ⟨"12", "34", "56", "ABCDE", .hex⟩
    current_color := some (AnsiColor.c16 3) }

/-- Usage-like segment data carrying a dynamic icon in its metadata. -/
def usageData : SegmentData := ⟨"50%", "", [("dynamic_icon", "x")]⟩

/-! ## Theorems -/

set_option maxRecDepth 16384

/-- C8: for every utilization, the Usage segment's dynamic icon function
returns exactly one of 8 fixed glyphs, chosen by the percentage buckets
0–12, 13–25, 26–37, 38–50, 51–62, 63–75, 76–87, 88–100 of the scaled
utilization; the buckets map to pairwise distinct glyphs, and
utilizations 0.0, 0.5 and 1.0 map to U+F0A9E (circle_slice_1),
U+F0AA1 (circle_slice_4) and U+F0AA5 (circle_slice_8) respectively. -/
theorem usage_dynamic_icon_buckets :
    (∀ u : Rq, get_circle_icon u ∈ circleGlyphs) ∧
    (∀ u : Rq,
      (usagePct u ≤ 12 → get_circle_icon u = circleSlice 1) ∧
      (13 ≤ usagePct u → usagePct u ≤ 25 → get_circle_icon u = circleSlice 2) ∧
      (26 ≤ usagePct u → usagePct u ≤ 37 → get_circle_icon u = circleSlice 3) ∧
      (38 ≤ usagePct u → usagePct u ≤ 50 → get_circle_icon u = circleSlice 4) ∧
      (51 ≤ usagePct u → usagePct u ≤ 62 → get_circle_icon u = circleSlice 5) ∧
      (63 ≤ usagePct u → usagePct u ≤ 75 → get_circle_icon u = circleSlice 6) ∧
      (76 ≤ usagePct u → usagePct u ≤ 87 → get_circle_icon u = circleSlice 7) ∧
      (88 ≤ usagePct u → get_circle_icon u = circleSlice 8)) ∧
    get_circle_icon (Rq.ofInt 0) = circleSlice 1 ∧
    get_circle_icon ⟨1, 2⟩ = circleSlice 4 ∧
    get_circle_icon (Rq.ofInt 1) = circleSlice 8 ∧
    circleSlice 1 = String.mk [Char.ofNat 0xF0A9E] ∧
    circleSlice 4 = String.mk [Char.ofNat 0xF0AA1] ∧
    circleSlice 8 = String.mk [Char.ofNat 0xF0AA5] ∧
    circleGlyphs.Pairwise (fun a b => a ≠ b) := by
  refine ⟨?_, ?_, by decide, by decide, by decide, by decide, by decide, by decide, by decide⟩
  · intro u
    simp only [get_circle_icon, circleGlyphs]
    split
    · simp
    split
    · simp
    split
    · simp
    split
    · simp
    split
    · simp
    split
    · simp
    split
    · simp
    · simp
  · intro u
    refine ⟨?_, ?_, ?_, ?_, ?_, ?_, ?_, ?_⟩
    · intro h1
      simp only [get_circle_icon]
      rw [if_pos h1]
    · intro h1 h2
      simp only [get_circle_icon]
      rw [if_neg (by omega), if_pos h2]
    · intro h1 h2
      simp only [get_circle_icon]
      rw [if_neg (by omega), if_neg (by omega), if_pos h2]
    · intro h1 h2
      simp only [get_circle_icon]
      rw [if_neg (by omega), if_neg (by omega), if_neg (by omega), if_pos h2]
    · intro h1 h2
      simp only [get_circle_icon]
      rw [if_neg (by omega), if_neg (by omega), if_neg (by omega), if_neg (by omega),
        if_pos h2]
    · intro h1 h2
      simp only [get_circle_icon]
      rw [if_neg (by omega), if_neg (by omega), if_neg (by omega), if_neg (by omega),
        if_neg (by omega), if_pos h2]
    · intro h1 h2
      simp only [get_circle_icon]
      rw [if_neg (by omega), if_neg (by omega), if_neg (by omega), if_neg (by omega),
        if_neg (by omega), if_neg (by omega), if_pos h2]
    · intro h1
      simp only [get_circle_icon]
      rw [if_neg (by omega), if_neg (by omega), if_neg (by omega), if_neg (by omega),
        if_neg (by omega), if_neg (by omega), if_neg (by omega)]

/-- C8 witness: utilization 1/4 scales to percentage 25, which falls in
the second bucket. -/
theorem usage_dynamic_icon_buckets_witness :
    get_circle_icon ⟨1, 4⟩ = circleSlice 2 :=
  (usage_dynamic_icon_buckets.2.1 ⟨1, 4⟩).2.1 (by decide) (by decide)

/-- C4 (amended): the Context segment's primary text. With a token
count and a positive window size it is
`"{percent}% · {formatTokens} tokens"`, where the percentage is the
`f64` computation `(used as f64 / window as f64 * 100.0) as i64`
(`contextPercent`); with tokens but no window size it is
`"{formatTokens} tokens"`; with neither it is exactly `"- · - tokens"`.
Token counts at or above one million format as one-decimal millions
with suffix `M`, at or above one thousand as one-decimal thousands with
suffix `k` (`f64` division, Rust `{:.1}` rounding), and below one
thousand as the literal integer.  In particular 500000 of 1000000
yields exactly `"50% · 500.0k tokens"`, and the spec's formatting
examples hold. -/
theorem context_primary_text_spec :
    (∀ (ctx : StatusLineContext) (used window : Int),
      ctx.context_used_tokens = some used → ctx.context_window_size = some window →
      0 < window →
      (ContextSegment.collect ctx).map SegmentData.primary =
        some (toString (contextPercent used window) ++ "%" ++ " · " ++
          (format_tokens used ++ " tokens"))) ∧
    (∀ (ctx : StatusLineContext) (used : Int),
      ctx.context_used_tokens = some used → ctx.context_window_size = none →
      (ContextSegment.collect ctx).map SegmentData.primary =
        some (format_tokens used ++ " tokens")) ∧
    (∀ ctx : StatusLineContext,
      ctx.context_used_tokens = none →
      (ContextSegment.collect ctx).map SegmentData.primary = some "- · - tokens") ∧
    (∀ t : Int,
      (t < 1000 → format_tokens t = toString t) ∧
      (1000 ≤ t → t < 1000000 →
        format_tokens t = fmtPrec1 (divF64 (intToF64 t) (Rq.ofInt 1000)) ++ "k") ∧
      (1000000 ≤ t →
        format_tokens t = fmtPrec1 (divF64 (intToF64 t) (Rq.ofInt 1000000)) ++ "M")) ∧
    (ContextSegment.collect ctxHalfMillion).map SegmentData.primary =
      some "50% · 500.0k tokens" ∧
    (ContextSegment.collect ctxNoTokens).map SegmentData.primary = some "- · - tokens" ∧
    format_tokens 500 = "500" ∧
    format_tokens 1500 = "1.5k" ∧
    format_tokens 150000 = "150.0k" ∧
    format_tokens 1500000 = "1.5M" := by
  refine ⟨?_, ?_, ?_, ?_, by decide, by decide, by decide, by decide, by decide, by decide⟩
  · intro ctx used window h1 h2 h3
    simp only [ContextSegment.collect, h1, h2]
    rw [if_pos h3]
    rfl
  · intro ctx used h1 h2
    simp only [ContextSegment.collect, h1, h2]
    rfl
  · intro ctx h1
    simp only [ContextSegment.collect, h1]
    rfl
  · intro t
    refine ⟨?_, ?_, ?_⟩
    · intro h
      unfold format_tokens
      rw [if_neg (by omega), if_neg (by omega)]
    · intro h1 h2
      unfold format_tokens
      rw [if_neg (by omega), if_pos (by omega)]
    · intro h
      unfold format_tokens
      rw [if_pos (by omega)]

/-- C4 witness: the full-data branch at 500000 used tokens of a
1000000-token window. -/
theorem context_primary_text_spec_witness :
    (ContextSegment.collect ctxHalfMillion).map SegmentData.primary =
      some (toString (contextPercent 500000 1000000) ++ "%" ++ " · " ++
        (format_tokens 500000 ++ " tokens")) :=
  context_primary_text_spec.1 ctxHalfMillion 500000 1000000 rfl rfl (by decide)

/-- C4 counterexample: with 29 used tokens of a 100-token window the
code produces `"28% · 29 tokens"`, while the claimed exact
`floor(used / window × 100)` is 29 — the `f64` rounding of `29 / 100`
loses the last bit and the truncation lands one below the exact
floor. -/
theorem context_percent_not_exact_floor :
    (ContextSegment.collect ctx29of100).map SegmentData.primary = some "28% · 29 tokens" ∧
    Int.fdiv (29 * 100) 100 = 29 ∧
    "28% · 29 tokens" ≠ "29% · 29 tokens" :=
  ⟨by decide, by decide, by decide⟩

/-- Horizontal navigation never changes the sub-mode. -/
theorem moveH_mode (p : ColorPicker) (d : Int) : (p.move_horizontal d).mode = p.mode := by
  unfold ColorPicker.move_horizontal
  split <;> rfl

/-- One rightward step in the Basic16 grid is the cyclic successor. -/
theorem moveH1_basic_sel (p : ColorPicker) (h : p.mode = .basic16)
    (hs : p.selected_basic < 16) :
    (p.move_horizontal 1).selected_basic = (p.selected_basic + 1) % 16 := by
  simp only [ColorPicker.move_horizontal, h]
  rw [if_pos (by omega)]
  split <;> omega

/-- One rightward step in the Extended256 grid is the cyclic successor. -/
theorem moveH1_ext_sel (p : ColorPicker) (h : p.mode = .extended256)
    (hs : p.selected_extended < 256) :
    (p.move_horizontal 1).selected_extended = (p.selected_extended + 1) % 256 := by
  simp only [ColorPicker.move_horizontal, h]
  rw [if_pos (by omega)]
  split <;> omega

/-- Iterating rightward steps in the Basic16 grid adds modulo 16. -/
theorem moveH_basic_iter (k : Nat) :
    ∀ p : ColorPicker, p.mode = .basic16 → p.selected_basic < 16 →
      ((fun q => ColorPicker.move_horizontal q 1)^[k] p).selected_basic =
        (p.selected_basic + k) % 16 := by
  induction k with
  | zero => intro p h hs; simpa using (Nat.mod_eq_of_lt hs).symm
  | succ k ih =>
    intro p h hs
    rw [Function.iterate_succ_apply]
    have h1 : (p.move_horizontal 1).mode = .basic16 := by rw [moveH_mode, h]
    have h2 := moveH1_basic_sel p h hs
    rw [ih _ h1 (by rw [h2]; exact Nat.mod_lt _ (by omega)), h2]
    omega

/-- Iterating rightward steps in the Extended256 grid adds modulo 256. -/
theorem moveH_ext_iter (k : Nat) :
    ∀ p : ColorPicker, p.mode = .extended256 → p.selected_extended < 256 →
      ((fun q => ColorPicker.move_horizontal q 1)^[k] p).selected_extended =
        (p.selected_extended + k) % 256 := by
  induction k with
  | zero => intro p h hs; simpa using (Nat.mod_eq_of_lt hs).symm
  | succ k ih =>
    intro p h hs
    rw [Function.iterate_succ_apply]
    have h1 : (p.move_horizontal 1).mode = .extended256 := by rw [moveH_mode, h]
    have h2 := moveH1_ext_sel p h hs
    rw [ih _ h1 (by rw [h2]; exact Nat.mod_lt _ (by omega)), h2]
    omega

/-- In a palette of `N` entries laid out `cols` per row, the row of a
valid index is below `N.div_ceil cols`. -/
theorem row_lt_ceil (s N cols : Nat) (hc : 1 ≤ cols) (hN : 1 ≤ N) (hs : s < N) :
    s / cols < (N + cols - 1) / cols := by
  have h1 : N + cols - 1 = (N - 1) + cols := by omega
  rw [h1, Nat.add_div_right _ (by omega)]
  exact Nat.lt_succ_of_le (Nat.div_le_div_right (by omega))

/-- The clamped-row if-chain of `move_vertical` agrees with the
spec-shaped `min`/truncated-subtraction form, for any in-range row. -/
theorem vertical_row_eq (d : Int) (r T : Nat) (hrT : r < T) :
    (if d > 0 then (if r + 1 < T then r + 1 else r) else if r > 0 then r - 1 else r) =
      clampedRowSpec d r T := by
  unfold clampedRowSpec
  split
  · split <;> omega
  · split <;> omega

/-- C5: grid navigation of the color picker.  Horizontal movement wraps
circularly, so 16 (resp. 256) successive `move_horizontal 1` calls from
any valid start index return to the start, and horizontal movement
keeps the index in range; vertical movement clamps (down at the last
row, up at row 0), the new index is
`min(newRow * cols + col, N - 1)` with `newRow` the spec's clamped row,
and the result is always below the palette size. -/
theorem grid_navigation_spec :
    (∀ p : ColorPicker, p.mode = .basic16 → p.selected_basic < 16 →
      ((fun q => ColorPicker.move_horizontal q 1)^[16] p).selected_basic =
        p.selected_basic) ∧
    (∀ p : ColorPicker, p.mode = .extended256 → p.selected_extended < 256 →
      ((fun q => ColorPicker.move_horizontal q 1)^[256] p).selected_extended =
        p.selected_extended) ∧
    (∀ (p : ColorPicker) (d : Int), p.mode = .basic16 → p.selected_basic < 16 →
      (p.move_horizontal d).selected_basic < 16) ∧
    (∀ (p : ColorPicker) (d : Int), p.mode = .extended256 → p.selected_extended < 256 →
      (p.move_horizontal d).selected_extended < 256) ∧
    (∀ (p : ColorPicker) (d : Int), p.mode = .basic16 → 1 ≤ p.cached_basic_cols →
      p.selected_basic < 16 →
      (p.move_vertical d).selected_basic =
        min (clampedRowSpec d (p.selected_basic / p.cached_basic_cols)
          ((16 + p.cached_basic_cols - 1) / p.cached_basic_cols) * p.cached_basic_cols +
          p.selected_basic % p.cached_basic_cols) 15 ∧
      (p.move_vertical d).selected_basic < 16) ∧
    (∀ (p : ColorPicker) (d : Int), p.mode = .extended256 → 1 ≤ p.cached_extended_cols →
      p.selected_extended < 256 →
      (p.move_vertical d).selected_extended =
        min (clampedRowSpec d (p.selected_extended / p.cached_extended_cols)
          ((256 + p.cached_extended_cols - 1) / p.cached_extended_cols) *
          p.cached_extended_cols + p.selected_extended % p.cached_extended_cols) 255 ∧
      (p.move_vertical d).selected_extended < 256) := by
  refine ⟨?_, ?_, ?_, ?_, ?_, ?_⟩
  · intro p h hs
    rw [moveH_basic_iter 16 p h hs]
    omega
  · intro p h hs
    rw [moveH_ext_iter 256 p h hs]
    omega
  · intro p d h hs
    simp only [ColorPicker.move_horizontal, h]
    split
    · split <;> omega
    · split <;> omega
  · intro p d h hs
    simp only [ColorPicker.move_horizontal, h]
    split
    · split <;> omega
    · split <;> omega
  · intro p d h hc hs
    constructor
    · simp only [ColorPicker.move_vertical, h]
      rw [vertical_row_eq d _ _ (row_lt_ceil _ 16 _ hc (by omega) hs)]
    · simp only [ColorPicker.move_vertical, h]
      exact Nat.lt_succ_of_le (Nat.min_le_right _ _)
  · intro p d h hc hs
    constructor
    · simp only [ColorPicker.move_vertical, h]
      rw [vertical_row_eq d _ _ (row_lt_ceil _ 256 _ hc (by omega) hs)]
    · simp only [ColorPicker.move_vertical, h]
      exact Nat.lt_succ_of_le (Nat.min_le_right _ _)

/-- C5 witness: from index 5 in the Basic16 grid, 16 rightward moves
return to index 5. -/
theorem grid_navigation_spec_witness :
    ((fun q => ColorPicker.move_horizontal q 1)^[16] pickerAt5).selected_basic =
      pickerAt5.selected_basic :=
  grid_navigation_spec.1 pickerAt5 rfl (by decide)

/-- Recomputing the RGB color touches only the committed color. -/
theorem update_rgb_sel (p : ColorPicker) :
    (p.update_rgb_color).selected_basic = p.selected_basic ∧
    (p.update_rgb_color).selected_extended = p.selected_extended := by
  unfold ColorPicker.update_rgb_color
  dsimp only
  split
  · exact ⟨rfl, rfl⟩
  · split <;> exact ⟨rfl, rfl⟩

/-- Character input does not move the Basic16 selection. -/
theorem input_char_sel_basic (p : ColorPicker) (c : Char) :
    (p.input_char c).selected_basic = p.selected_basic := by
  unfold ColorPicker.input_char
  split
  · rfl
  · split <;> split <;> exact (update_rgb_sel _).1

/-- Character input does not move the Extended256 selection. -/
theorem input_char_sel_ext (p : ColorPicker) (c : Char) :
    (p.input_char c).selected_extended = p.selected_extended := by
  unfold ColorPicker.input_char
  split
  · rfl
  · split <;> split <;> exact (update_rgb_sel _).2

/-- Backspace does not move the Basic16 selection. -/
theorem backspace_sel_basic (p : ColorPicker) :
    (p.backspace).selected_basic = p.selected_basic := by
  unfold ColorPicker.backspace
  split
  · rfl
  · split <;> exact (update_rgb_sel _).1

/-- Backspace does not move the Extended256 selection. -/
theorem backspace_sel_ext (p : ColorPicker) :
    (p.backspace).selected_extended = p.selected_extended := by
  unfold ColorPicker.backspace
  split
  · rfl
  · split <;> exact (update_rgb_sel _).2

/-- C9 counterexample: cycling the sub-mode three times (back to
Basic16) leaves the selection at index 5 and the red text field at
`"12"` — the navigation state is not reset (a reset state has index 0
and empty fields, as `open` produces). -/
theorem cycle_mode_does_not_reset :
    (pickerAt5.cycle_mode.cycle_mode.cycle_mode).mode = ColorPickerMode.basic16 ∧
    (pickerAt5.cycle_mode.cycle_mode.cycle_mode).selected_basic = 5 ∧
    (pickerAt5.cycle_mode.cycle_mode.cycle_mode).rgb_input.r = "12" ∧
    (5 : Nat) ≠ 0 ∧ "12" ≠ "" := by
  refine ⟨by decide, by decide, by decide, by decide, by decide⟩

/-- C9 (amended): the selection indices are always valid for their
palette sizes — the validity invariant holds for the initial state and
is preserved by every picker operation — and `cycle_mode` changes only
the sub-mode (a three-step cycle returns to it), preserving the
selection indices, the text-entry fields and the committed color; the
navigation state is instead reset by `open`, which installs the caller's
current color as the committed color. -/
theorem picker_cycle_and_invariant_spec :
    (∀ p : ColorPicker,
      (p.cycle_mode).selected_basic = p.selected_basic ∧
      (p.cycle_mode).selected_extended = p.selected_extended ∧
      (p.cycle_mode).rgb_input = p.rgb_input ∧
      (p.cycle_mode).current_color = p.current_color ∧
      (p.cycle_mode.cycle_mode.cycle_mode).mode = p.mode) ∧
    (∀ (p : ColorPicker) (t : ColorTarget) (c : Option AnsiColor),
      (p.openPicker t c).mode = ColorPickerMode.basic16 ∧
      (p.openPicker t c).selected_basic = 0 ∧
      (p.openPicker t c).selected_extended = 0 ∧
      (p.openPicker t c).rgb_input = RgbInput.default ∧
      (p.openPicker t c).current_color = c) ∧
    pickerInv ColorPicker.default ∧
    (∀ p : ColorPicker, pickerInv p →
      (∀ (t : ColorTarget) (c : Option AnsiColor), pickerInv (p.openPicker t c)) ∧
      pickerInv p.close ∧
      pickerInv p.cycle_mode ∧
      (∀ d : Int, pickerInv (p.move_horizontal d)) ∧
      (∀ d : Int, pickerInv (p.move_vertical d)) ∧
      (∀ c : Char, pickerInv (p.input_char c)) ∧
      pickerInv p.backspace) := by
  refine ⟨?_, ?_, ⟨by decide, by decide⟩, ?_⟩
  · intro p
    refine ⟨rfl, rfl, rfl, rfl, ?_⟩
    rcases p with ⟨o, m, sb, se, ri, cc, tf, cb, ce⟩
    cases m <;> rfl
  · intro p t c
    exact ⟨rfl, rfl, rfl, rfl, rfl⟩
  · intro p hInv
    refine ⟨?_, ?_, ?_, ?_, ?_, ?_, ?_⟩
    · intro t c
      exact ⟨by norm_num [ColorPicker.openPicker], by norm_num [ColorPicker.openPicker]⟩
    · exact hInv
    · exact hInv
    · intro d
      cases hm : p.mode
      · simp only [ColorPicker.move_horizontal, hm]
        refine ⟨?_, hInv.2⟩
        dsimp only
        have := hInv.1
        split <;> split <;> omega
      · simp only [ColorPicker.move_horizontal, hm]
        refine ⟨hInv.1, ?_⟩
        dsimp only
        have := hInv.2
        split <;> split <;> omega
      · simp only [ColorPicker.move_horizontal, hm]
        exact hInv
    · intro d
      cases hm : p.mode
      · simp only [ColorPicker.move_vertical, hm]
        exact ⟨Nat.lt_succ_of_le (Nat.min_le_right _ _), hInv.2⟩
      · simp only [ColorPicker.move_vertical, hm]
        exact ⟨hInv.1, Nat.lt_succ_of_le (Nat.min_le_right _ _)⟩
      · simp only [ColorPicker.move_vertical, hm]
        exact hInv
    · intro c
      exact ⟨by rw [input_char_sel_basic]; exact hInv.1,
        by rw [input_char_sel_ext]; exact hInv.2⟩
    · exact ⟨by rw [backspace_sel_basic]; exact hInv.1,
        by rw [backspace_sel_ext]; exact hInv.2⟩

/-- C9 witness: the invariant holds at the concrete picker state with
selection 5 and is preserved by cycling its sub-mode. -/
theorem picker_cycle_and_invariant_spec_witness :
    pickerInv (pickerAt5.cycle_mode) :=
  (picker_cycle_and_invariant_spec.2.2.2 pickerAt5 ⟨by decide, by decide⟩).2.2.1

/-- Recomputing the RGB color leaves the text-entry fields unchanged. -/
theorem update_rgb_rgbinput (p : ColorPicker) :
    (p.update_rgb_color).rgb_input = p.rgb_input := by
  unfold ColorPicker.update_rgb_color
  dsimp only
  split
  · rfl
  · split <;> rfl

/-- The committed color after `update_rgb_color` is exactly the
spec-shaped recomputation: hex first (exactly 6 hex characters),
then the three decimal fields, else unchanged. -/
theorem update_rgb_current (p : ColorPicker) :
    (p.update_rgb_color).current_color = rgbColorSpec p.rgb_input p.current_color := by
  unfold ColorPicker.update_rgb_color rgbColorSpec parseHex6
  dsimp only
  by_cases h6 : strLen p.rgb_input.hex = 6
  · have hne : ¬p.rgb_input.hex.isEmpty = true := by
      intro hE
      rw [String.isEmpty_iff] at hE
      rw [hE] at h6
      exact absurd h6 (by decide)
    rw [if_pos ⟨hne, h6⟩, if_pos h6]
    cases parseHex2 (p.rgb_input.hex.data.take 2) <;>
      cases parseHex2 ((p.rgb_input.hex.data.drop 2).take 2) <;>
      cases parseHex2 ((p.rgb_input.hex.data.drop 4).take 2) <;>
      first
      | rfl
      | (cases parseU8 p.rgb_input.r <;> cases parseU8 p.rgb_input.g <;>
          cases parseU8 p.rgb_input.b <;> rfl)
  · rw [if_neg (fun hand => h6 hand.2), if_neg h6]
    cases parseU8 p.rgb_input.r <;> cases parseU8 p.rgb_input.g <;>
      cases parseU8 p.rgb_input.b <;> rfl

/-- The spec-shaped recomputation never drops a committed color. -/
theorem rgbColorSpec_isSome (inp : RgbInput) (old : Option AnsiColor)
    (h : old.isSome = true) : (rgbColorSpec inp old).isSome = true := by
  unfold rgbColorSpec
  split
  · rfl
  · split
    · rfl
    · exact h

/-- C7: RGB text-entry behavior of the color picker.  A typed character
is inserted only when the focused field's filter accepts it (ASCII
digit and length below 3 for the R/G/B fields; ASCII hex digit,
uppercased, and length below 6 for the hex field) — a rejected
keystroke leaves the text fields unchanged; after every insertion and
every deletion the committed color is recomputed with hex priority
(exactly 6 hex characters parse as RRGGBB, otherwise the three decimal
fields must each parse as 0–255, otherwise the color is unchanged); and
partial or invalid input never resets a previously committed color. -/
theorem rgb_input_keystroke_spec :
    (∀ (p : ColorPicker) (c : Char), p.mode = ColorPickerMode.rgbInput →
      (p.rgb_input.editing_field = RgbField.red →
        ((strLen p.rgb_input.r < 3 ∧ isAsciiDigit c = true) →
          (p.input_char c).rgb_input.r = p.rgb_input.r.push c) ∧
        (¬(strLen p.rgb_input.r < 3 ∧ isAsciiDigit c = true) →
          (p.input_char c).rgb_input = p.rgb_input)) ∧
      (p.rgb_input.editing_field = RgbField.green →
        ((strLen p.rgb_input.g < 3 ∧ isAsciiDigit c = true) →
          (p.input_char c).rgb_input.g = p.rgb_input.g.push c) ∧
        (¬(strLen p.rgb_input.g < 3 ∧ isAsciiDigit c = true) →
          (p.input_char c).rgb_input = p.rgb_input)) ∧
      (p.rgb_input.editing_field = RgbField.blue →
        ((strLen p.rgb_input.b < 3 ∧ isAsciiDigit c = true) →
          (p.input_char c).rgb_input.b = p.rgb_input.b.push c) ∧
        (¬(strLen p.rgb_input.b < 3 ∧ isAsciiDigit c = true) →
          (p.input_char c).rgb_input = p.rgb_input)) ∧
      (p.rgb_input.editing_field = RgbField.hex →
        ((strLen p.rgb_input.hex < 6 ∧ isAsciiHexdigit c = true) →
          (p.input_char c).rgb_input.hex = p.rgb_input.hex.push (toAsciiUppercase c)) ∧
        (¬(strLen p.rgb_input.hex < 6 ∧ isAsciiHexdigit c = true) →
          (p.input_char c).rgb_input = p.rgb_input))) ∧
    (∀ (p : ColorPicker) (c : Char), p.mode = ColorPickerMode.rgbInput →
      (p.input_char c).current_color =
        rgbColorSpec (p.input_char c).rgb_input p.current_color) ∧
    (∀ p : ColorPicker, p.mode = ColorPickerMode.rgbInput →
      (p.backspace).current_color = rgbColorSpec (p.backspace).rgb_input p.current_color) ∧
    (∀ (p : ColorPicker) (c : Char), p.current_color.isSome = true →
      (p.input_char c).current_color.isSome = true ∧
      (p.backspace).current_color.isSome = true) := by
  refine ⟨?_, ?_, ?_, ?_⟩
  · intro p c hm
    refine ⟨?_, ?_, ?_, ?_⟩ <;> intro hf <;> constructor
    · intro hcond
      simp only [ColorPicker.input_char, hm, hf]
      rw [if_neg (by simp), if_pos hcond, update_rgb_rgbinput]
    · intro hcond
      simp only [ColorPicker.input_char, hm, hf]
      rw [if_neg (by simp), if_neg hcond]
      exact update_rgb_rgbinput p
    · intro hcond
      simp only [ColorPicker.input_char, hm, hf]
      rw [if_neg (by simp), if_pos hcond, update_rgb_rgbinput]
    · intro hcond
      simp only [ColorPicker.input_char, hm, hf]
      rw [if_neg (by simp), if_neg hcond]
      exact update_rgb_rgbinput p
    · intro hcond
      simp only [ColorPicker.input_char, hm, hf]
      rw [if_neg (by simp), if_pos hcond, update_rgb_rgbinput]
    · intro hcond
      simp only [ColorPicker.input_char, hm, hf]
      rw [if_neg (by simp), if_neg hcond]
      exact update_rgb_rgbinput p
    · intro hcond
      simp only [ColorPicker.input_char, hm, hf]
      rw [if_neg (by simp), if_pos hcond, update_rgb_rgbinput]
    · intro hcond
      simp only [ColorPicker.input_char, hm, hf]
      rw [if_neg (by simp), if_neg hcond]
      exact update_rgb_rgbinput p
  · intro p c hm
    simp only [ColorPicker.input_char, hm]
    rw [if_neg (by simp)]
    split <;> split <;> rw [update_rgb_current, update_rgb_rgbinput]
  · intro p hm
    simp only [ColorPicker.backspace, hm]
    rw [if_neg (by simp)]
    split <;> rw [update_rgb_current, update_rgb_rgbinput]
  · intro p c h
    constructor
    · unfold ColorPicker.input_char
      split
      · exact h
      · split <;> split <;> (rw [update_rgb_current]; exact rgbColorSpec_isSome _ _ h)
    · unfold ColorPicker.backspace
      split
      · exact h
      · split <;> (rw [update_rgb_current]; exact rgbColorSpec_isSome _ _ h)

/-- C7 witness: typing `f` into the five-character hex field `"ABCDE"`
completes six hex characters and recomputes the color with hex
priority. -/
theorem rgb_input_keystroke_spec_witness :
    (pickerRgb.input_char 'f').current_color =
      rgbColorSpec (pickerRgb.input_char 'f').rgb_input pickerRgb.current_color :=
  rgb_input_keystroke_spec.2.1 pickerRgb 'f' rfl

/-- C3 counterexample: with a present-but-empty `"dynamic_icon"`
metadata entry, `get_icon` returns the empty string rather than the
statically configured icon (`"Y"` under NerdFont mode), so "present and
non-empty" is not the precedence condition the code implements. -/
theorem dynamic_icon_empty_counterexample :
    emptyDynIconData.metadata.lookup "dynamic_icon" = some "" ∧
    get_icon iconConfig SegmentId.usage emptyDynIconData = "" ∧
    (iconConfig.get_segment_config SegmentId.usage).icon.get iconConfig.style = "Y" ∧
    get_icon iconConfig SegmentId.usage emptyDynIconData ≠
      (iconConfig.get_segment_config SegmentId.usage).icon.get iconConfig.style :=
  ⟨rfl, rfl, rfl, by decide⟩

/-- C3 (amended): for both rendering algorithms the glyph drawn for a
segment equals `metadata["dynamic_icon"]` exactly when that key is
present — even when its value is empty — and otherwise equals the
statically configured icon resolved by style mode (the plain icon in
Plain mode, the nerd-font icon in NerdFont and Powerline modes); a
non-empty resolved glyph is drawn as an icon span in both `render_plain`
and `render_powerline`. -/
theorem icon_resolution_spec :
    (∀ (c : CxLineConfig) (id : SegmentId) (data : SegmentData) (s : String),
      data.metadata.lookup "dynamic_icon" = some s → get_icon c id data = s) ∧
    (∀ (c : CxLineConfig) (id : SegmentId) (data : SegmentData),
      data.metadata.lookup "dynamic_icon" = none →
      get_icon c id data =
        (match c.style with
        | .plain => (c.get_segment_config id).icon.plain
        | .nerdFont | .powerline => (c.get_segment_config id).icon.nerd_font)) ∧
    (∀ (c : CxLineConfig) (id : SegmentId) (data : SegmentData),
      (c.get_segment_config id).enabled = true → get_icon c id data ≠ "" →
      (render_plain c [(id, data)]).head? =
        some ⟨get_icon c id data ++ " ",
          RStyle.empty.applyFg (c.get_segment_config id).colors.icon_color⟩) ∧
    (∀ (c : CxLineConfig) (id : SegmentId) (data : SegmentData),
      get_icon c id data ≠ "" →
      (powerlineSegmentSpans c id data)[1]? =
        some ⟨get_icon c id data ++ " ",
          (powerlineSegmentStyle c id).applyFg (c.get_segment_config id).colors.icon_color⟩) := by
  refine ⟨?_, ?_, ?_, ?_⟩
  · intro c id data s h
    unfold get_icon
    rw [h]
  · intro c id data h
    unfold get_icon
    rw [h]
    unfold IconConfig.get
    cases c.style <;> rfl
  · intro c id data he hi
    simp only [render_plain, renderPlainAux, he, if_true]
    unfold plainSegmentSpans
    dsimp only
    rw [if_pos hi]
    rfl
  · intro c id data hi
    unfold powerlineSegmentSpans
    dsimp only
    rw [if_pos hi]
    rfl

/-- C3 witness: the first conjunct applied to the concrete
present-but-empty metadata entry. -/
theorem icon_resolution_spec_witness :
    get_icon iconConfig SegmentId.usage emptyDynIconData = "" :=
  icon_resolution_spec.1 iconConfig SegmentId.usage emptyDynIconData "" rfl

/-- The plain-mode render loop never reads the configured separator
string: two configurations differing only in `separator` render the
same spans. -/
theorem renderPlainAux_separator_irrelevant (e : Bool) (t : String) (st : StyleMode)
    (s1 s2 : String) (sg : SegmentsConfig) :
    ∀ (segs : List (SegmentId × SegmentData)) (first : Bool),
      renderPlainAux ⟨e, t, st, s1, sg⟩ segs first =
        renderPlainAux ⟨e, t, st, s2, sg⟩ segs first := by
  intro segs
  induction segs with
  | nil => intro first; rfl
  | cons hd tl ih =>
    intro first
    rcases hd with ⟨id, data⟩
    have h1 : plainSegmentSpans ⟨e, t, st, s1, sg⟩ id data =
        plainSegmentSpans ⟨e, t, st, s2, sg⟩ id data := rfl
    have h2 : get_separator (⟨e, t, st, s1, sg⟩ : CxLineConfig) =
        get_separator ⟨e, t, st, s2, sg⟩ := rfl
    have h3 : (CxLineConfig.get_segment_config ⟨e, t, st, s1, sg⟩ id).enabled =
        (CxLineConfig.get_segment_config ⟨e, t, st, s2, sg⟩ id).enabled := rfl
    simp only [renderPlainAux]
    rw [h1, h2, h3, ih false, ih first]

/-- The powerline render loop never reads the configured separator
string either. -/
theorem renderPowerlineFrom_separator_irrelevant (e : Bool) (t : String) (st : StyleMode)
    (s1 s2 : String) (sg : SegmentsConfig) (E : List (SegmentId × SegmentData)) :
    ∀ (rest : List (SegmentId × SegmentData)) (i : Nat),
      renderPowerlineFrom ⟨e, t, st, s1, sg⟩ E i rest =
        renderPowerlineFrom ⟨e, t, st, s2, sg⟩ E i rest := by
  intro rest
  induction rest with
  | nil => intro i; rfl
  | cons hd tl ih =>
    intro i
    rcases hd with ⟨id, data⟩
    have h1 : powerlineSegmentSpans ⟨e, t, st, s1, sg⟩ id data =
        powerlineSegmentSpans ⟨e, t, st, s2, sg⟩ id data := rfl
    have h2 : ∀ nid, arrowSpan (⟨e, t, st, s1, sg⟩ : CxLineConfig) id nid =
        arrowSpan ⟨e, t, st, s2, sg⟩ id nid := fun _ => rfl
    simp only [renderPowerlineFrom]
    rw [ih (i + 1), h1]
    simp only [h2]

/-- C2: the configured separator string has no effect on rendering.
The Plain/NerdFont renderer emits the fixed constant
`separators::SIMPLE` (`" │ "`) between rendered segments: at a concrete
Plain-mode configuration whose configured separator is `"--"`, the span
between the two enabled segments is `" │ "`, not `"--"`; and in
general, two configurations differing only in `separator` render
identical span sequences. -/
theorem plain_separator_is_constant :
    sepConfig.separator = "--" ∧
    render_line sepConfig
        [(SegmentId.model, SegmentData.new "M"), (SegmentId.directory, SegmentData.new "D")] =
      [⟨"M", RStyle.empty⟩, ⟨separators.SIMPLE, { RStyle.empty with dim := true }⟩,
        ⟨"D", RStyle.empty⟩] ∧
    separators.SIMPLE ≠ sepConfig.separator ∧
    (∀ (e : Bool) (t : String) (st : StyleMode) (s1 s2 : String) (sg : SegmentsConfig)
      (segs : List (SegmentId × SegmentData)),
      render_line ⟨e, t, st, s1, sg⟩ segs = render_line ⟨e, t, st, s2, sg⟩ segs) := by
  refine ⟨rfl, by decide, by decide, ?_⟩
  intro e t st s1 s2 sg segs
  unfold render_line
  cases st
  · exact renderPlainAux_separator_irrelevant e t _ s1 s2 sg segs true
  · exact renderPlainAux_separator_irrelevant e t _ s1 s2 sg segs true
  · unfold render_powerline
    dsimp only
    have hE : powerlineEnabled ⟨e, t, .powerline, s1, sg⟩ segs =
        powerlineEnabled ⟨e, t, .powerline, s2, sg⟩ segs := rfl
    rw [hE]
    exact renderPowerlineFrom_separator_irrelevant e t _ s1 s2 sg _ _ 0

/-- The indexed powerline loop, started at any position `i` with
`rest = enabled.drop i`, produces exactly the spec-shaped interleaving
of segment spans and arrows for the remaining segments. -/
theorem renderPowerlineFrom_eq_spec (c : CxLineConfig) (E : List (SegmentId × SegmentData)) :
    ∀ (rest : List (SegmentId × SegmentData)) (i : Nat), E.drop i = rest →
      renderPowerlineFrom c E i rest = powerlineSpansSpec c rest := by
  intro rest
  induction rest with
  | nil => intro i h; rfl
  | cons hd tl ih =>
    intro i h
    rcases hd with ⟨id, data⟩
    have hdrop : E.drop (i + 1) = tl := by
      rw [← List.tail_drop, h]
      rfl
    have hnext : E[i + 1]? = tl.head? := by
      have h0 : (E.drop (i + 1))[0]? = E[i + 1 + 0]? := List.getElem?_drop E (i + 1) 0
      rw [hdrop] at h0
      rw [List.head?_eq_getElem?, h0]
    have hlen : i + (tl.length + 1) = E.length := by
      have hl := congrArg List.length h
      rw [List.length_drop] at hl
      simp only [List.length_cons] at hl
      omega
    cases tl with
    | nil =>
      have hcond : ¬(i < E.length - 1) := by
        simp only [List.length_nil] at hlen
        omega
      simp only [renderPowerlineFrom, powerlineSpansSpec]
      rw [if_neg hcond]
      simp [renderPowerlineFrom]
    | cons nxt tl2 =>
      rcases nxt with ⟨nid, nd⟩
      have hsome : E[i + 1]? = some (nid, nd) := by rw [hnext]; rfl
      have hcond : i < E.length - 1 := by
        simp only [List.length_cons] at hlen
        omega
      have hstep : renderPowerlineFrom c E i ((id, data) :: (nid, nd) :: tl2) =
          powerlineSegmentSpans c id data ++
            (if i < E.length - 1 then
              match E[i + 1]? with
              | some (next_id, _) => [arrowSpan c id next_id]
              | none => []
            else []) ++ renderPowerlineFrom c E (i + 1) ((nid, nd) :: tl2) := rfl
      rw [hstep, if_pos hcond, hsome, ih (i + 1) hdrop]
      simp [powerlineSpansSpec]

/-- One arrow per consecutive pair: the arrow list of `n` segments has
length `n - 1`. -/
theorem powerlineArrowsSpec_length (c : CxLineConfig) :
    ∀ E : List (SegmentId × SegmentData),
      (powerlineArrowsSpec c E).length = E.length - 1
  | [] => rfl
  | [_] => rfl
  | a :: b :: rest => by
    rcases a with ⟨id, d1⟩
    rcases b with ⟨nid, d2⟩
    have ih := powerlineArrowsSpec_length c ((nid, d2) :: rest)
    simp only [List.length_cons] at ih
    simp only [powerlineArrowsSpec, List.length_cons]
    omega

/-- C1: `render_powerline` is exactly the spec-shaped interleaving: the
enabled segments' span groups with exactly one arrow span between each
pair of consecutive enabled segments — so `n` enabled segments produce
`n - 1` arrows and a single enabled segment produces none — and each
arrow span carries the arrow glyph with foreground equal to the
preceding segment's background color and background equal to the
following segment's background color (`none`, the terminal default,
when unset). -/
theorem powerline_arrow_spec :
    (∀ (c : CxLineConfig) (segs : List (SegmentId × SegmentData)),
      render_powerline c segs = powerlineSpansSpec c (powerlineEnabled c segs)) ∧
    (∀ (c : CxLineConfig) (a b : SegmentId × SegmentData)
      (rest : List (SegmentId × SegmentData)),
      powerlineSpansSpec c (a :: b :: rest) =
        powerlineSegmentSpans c a.1 a.2 ++
          arrowSpan c a.1 b.1 :: powerlineSpansSpec c (b :: rest)) ∧
    (∀ (c : CxLineConfig) (x : SegmentId × SegmentData),
      powerlineSpansSpec c [x] = powerlineSegmentSpans c x.1 x.2) ∧
    (∀ (c : CxLineConfig) (E : List (SegmentId × SegmentData)),
      (powerlineArrowsSpec c E).length = E.length - 1) ∧
    (∀ (c : CxLineConfig) (id next_id : SegmentId),
      arrowSpan c id next_id =
        ⟨POWERLINE_ARROW,
          ⟨(c.get_segment_config id).colors.background_color,
            (c.get_segment_config next_id).colors.background_color, false, false⟩⟩) := by
  refine ⟨?_, ?_, ?_, ?_, ?_⟩
  · intro c segs
    unfold render_powerline
    exact renderPowerlineFrom_eq_spec c _ _ 0 rfl
  · intro c a b rest
    rcases a with ⟨id, data⟩
    rcases b with ⟨nid, nd⟩
    rfl
  · intro c x
    rcases x with ⟨id, data⟩
    rfl
  · exact powerlineArrowsSpec_length
  · intro c id next_id
    unfold arrowSpan RStyle.applyFg RStyle.applyBg
    cases hb : (c.get_segment_config id).colors.background_color <;>
      cases hnb : (c.get_segment_config next_id).colors.background_color <;>
      simp [hb, hnb, RStyle.empty, RStyle.setFg, RStyle.setBg]

/-- Replacing the usage icon never changes an arrow span. -/
theorem arrowSpan_usage_icon (c : CxLineConfig) (ic : IconConfig) :
    ∀ a b : SegmentId, arrowSpan (set_usage_icon c ic) a b = arrowSpan c a b := by
  intro a b
  cases a <;> cases b <;> rfl

/-- Replacing the usage icon never changes the enabled flag consulted
by the renderers. -/
theorem enabled_usage_icon (c : CxLineConfig) (ic : IconConfig) :
    ∀ id : SegmentId,
      ((set_usage_icon c ic).get_segment_config id).enabled =
        (c.get_segment_config id).enabled := by
  intro id
  cases id <;> rfl

/-- Replacing the usage icon does not change the resolved glyph of a
segment whose metadata carries a dynamic icon (and of any non-usage
segment). -/
theorem get_icon_usage_icon (c : CxLineConfig) (ic : IconConfig) (id : SegmentId)
    (data : SegmentData)
    (h : id = SegmentId.usage → (data.metadata.lookup "dynamic_icon").isSome = true) :
    get_icon (set_usage_icon c ic) id data = get_icon c id data := by
  unfold get_icon
  rcases hs : data.metadata.lookup "dynamic_icon" with _ | s
  · cases id
    case usage =>
      rw [hs] at h
      simp at h
    all_goals rfl
  · rfl

/-- Replacing the usage icon does not change a plain-mode segment's
spans when its metadata carries a dynamic icon (or it is not the usage
segment). -/
theorem plainSegmentSpans_usage_icon (c : CxLineConfig) (ic : IconConfig) (id : SegmentId)
    (data : SegmentData)
    (h : id = SegmentId.usage → (data.metadata.lookup "dynamic_icon").isSome = true) :
    plainSegmentSpans (set_usage_icon c ic) id data = plainSegmentSpans c id data := by
  have hgi := get_icon_usage_icon c ic id data h
  unfold plainSegmentSpans
  dsimp only
  rw [hgi]
  cases id <;> rfl

/-- Replacing the usage icon does not change a powerline segment's
spans when its metadata carries a dynamic icon (or it is not the usage
segment). -/
theorem powerlineSegmentSpans_usage_icon (c : CxLineConfig) (ic : IconConfig)
    (id : SegmentId) (data : SegmentData)
    (h : id = SegmentId.usage → (data.metadata.lookup "dynamic_icon").isSome = true) :
    powerlineSegmentSpans (set_usage_icon c ic) id data = powerlineSegmentSpans c id data := by
  have hgi := get_icon_usage_icon c ic id data h
  unfold powerlineSegmentSpans powerlineSegmentStyle
  dsimp only
  rw [hgi]
  cases id <;> rfl

/-- Replacing the usage icon leaves the powerline enabled filter
unchanged. -/
theorem powerlineEnabled_usage_icon (c : CxLineConfig) (ic : IconConfig)
    (segs : List (SegmentId × SegmentData)) :
    powerlineEnabled (set_usage_icon c ic) segs = powerlineEnabled c segs := by
  unfold powerlineEnabled
  apply List.filter_congr
  intro p _
  rcases p with ⟨id, d⟩
  cases id <;> rfl

/-- The plain render loop is unchanged by a usage-icon replacement when
every usage entry carries a dynamic icon. -/
theorem renderPlainAux_usage_icon (c : CxLineConfig) (ic : IconConfig) :
    ∀ (segs : List (SegmentId × SegmentData)) (first : Bool),
      (∀ d, (SegmentId.usage, d) ∈ segs →
        (d.metadata.lookup "dynamic_icon").isSome = true) →
      renderPlainAux (set_usage_icon c ic) segs first = renderPlainAux c segs first := by
  intro segs
  induction segs with
  | nil => intro first _; rfl
  | cons hd tl ih =>
    intro first hm
    rcases hd with ⟨id, data⟩
    have htl : ∀ d, (SegmentId.usage, d) ∈ tl →
        (d.metadata.lookup "dynamic_icon").isSome = true :=
      fun d hd => hm d (List.mem_cons_of_mem _ hd)
    have hcur : id = SegmentId.usage → (data.metadata.lookup "dynamic_icon").isSome = true :=
      fun hid => hm data (by rw [← hid]; exact List.mem_cons_self _ _)
    have hsep : get_separator (set_usage_icon c ic) = get_separator c := rfl
    simp only [renderPlainAux]
    rw [enabled_usage_icon, hsep, plainSegmentSpans_usage_icon c ic id data hcur,
      ih false htl, ih first htl]

/-- The powerline render loop is unchanged by a usage-icon replacement
when every usage entry of the remaining list carries a dynamic icon. -/
theorem renderPowerlineFrom_usage_icon (c : CxLineConfig) (ic : IconConfig)
    (E : List (SegmentId × SegmentData)) :
    ∀ (rest : List (SegmentId × SegmentData)) (i : Nat),
      (∀ d, (SegmentId.usage, d) ∈ rest →
        (d.metadata.lookup "dynamic_icon").isSome = true) →
      renderPowerlineFrom (set_usage_icon c ic) E i rest =
        renderPowerlineFrom c E i rest := by
  intro rest
  induction rest with
  | nil => intro i _; rfl
  | cons hd tl ih =>
    intro i hm
    rcases hd with ⟨id, data⟩
    have htl : ∀ d, (SegmentId.usage, d) ∈ tl →
        (d.metadata.lookup "dynamic_icon").isSome = true :=
      fun d hd => hm d (List.mem_cons_of_mem _ hd)
    have hcur : id = SegmentId.usage → (data.metadata.lookup "dynamic_icon").isSome = true :=
      fun hid => hm data (by rw [← hid]; exact List.mem_cons_self _ _)
    simp only [renderPowerlineFrom]
    rw [powerlineSegmentSpans_usage_icon c ic id data hcur, ih (i + 1) htl]
    simp only [arrowSpan_usage_icon]

/-- C10: whenever the Usage segment produces data, its metadata
contains the `"dynamic_icon"` key, the renderer resolves exactly that
glyph for the usage segment (never the statically configured icon), and
consequently replacing the configured usage icon has no effect on the
rendered line. -/
theorem usage_dynamic_icon_always_wins :
    (∀ (ctx : StatusLineContext) (d : SegmentData), UsageSegment.collect ctx = some d →
      (d.metadata.lookup "dynamic_icon").isSome = true) ∧
    (∀ (ctx : StatusLineContext) (d : SegmentData) (c : CxLineConfig),
      UsageSegment.collect ctx = some d →
      ∃ s, d.metadata.lookup "dynamic_icon" = some s ∧ get_icon c SegmentId.usage d = s) ∧
    (∀ (c : CxLineConfig) (ic : IconConfig) (segs : List (SegmentId × SegmentData)),
      (∀ d, (SegmentId.usage, d) ∈ segs →
        (d.metadata.lookup "dynamic_icon").isSome = true) →
      render_line (set_usage_icon c ic) segs = render_line c segs) := by
  refine ⟨?_, ?_, ?_⟩
  · intro ctx d h
    unfold UsageSegment.collect at h
    rcases hp : ctx.rate_limit_percent with _ | percent
    · rw [hp] at h
      exact absurd h (by simp)
    · rw [hp] at h
      rcases hr : ctx.rate_limit_resets_at with _ | resets_at <;> rw [hr] at h <;>
        dsimp only at h <;> rw [← Option.some.inj h] <;> rfl
  · intro ctx d c h
    unfold UsageSegment.collect at h
    rcases hp : ctx.rate_limit_percent with _ | percent
    · rw [hp] at h
      exact absurd h (by simp)
    · rw [hp] at h
      rcases hr : ctx.rate_limit_resets_at with _ | resets_at <;> rw [hr] at h <;>
        dsimp only at h <;> rw [← Option.some.inj h] <;>
        exact ⟨get_circle_icon (divF64 percent (Rq.ofInt 100)), rfl, rfl⟩
  · intro c ic segs hm
    unfold render_line
    have hstyle : (set_usage_icon c ic).style = c.style := rfl
    rw [hstyle]
    cases hst : c.style
    · exact renderPlainAux_usage_icon c ic segs true hm
    · exact renderPlainAux_usage_icon c ic segs true hm
    · unfold render_powerline
      dsimp only
      rw [powerlineEnabled_usage_icon]
      exact renderPowerlineFrom_usage_icon c ic _ _ 0
        (fun d hd => hm d (List.mem_of_mem_filter hd))

/-- C10 witness: replacing the configured usage icon does not change
the rendered line for a concrete usage segment whose metadata carries a
dynamic icon. -/
theorem usage_dynamic_icon_always_wins_witness :
    render_line (set_usage_icon iconConfig ⟨"A", "B"⟩) [(SegmentId.usage, usageData)] =
      render_line iconConfig [(SegmentId.usage, usageData)] :=
  usage_dynamic_icon_always_wins.2.2 iconConfig ⟨"A", "B"⟩ [(SegmentId.usage, usageData)]
    (by intro d hd; simp at hd; rw [hd]; rfl)

/-- Serializing then deserializing any in-range `AnsiColor` yields the
same value: the untagged variants are told apart by their field names. -/
theorem ansiColor_roundtrip (c : AnsiColor) (h : wfAnsiColor c) :
    deserializeAnsiColor (serializeAnsiColor c) = some c := by
  cases c with
  | color16 n =>
    have h1 : n ≤ 255 := h
    have hc16 : deserializeColor16 (serializeAnsiColor (.color16 n)) =
        some (AnsiColor.color16 n) := by
      show Option.map AnsiColor.color16 (if n ≤ 255 then some n else none) =
        some (AnsiColor.color16 n)
      rw [if_pos h1]
      rfl
    unfold deserializeAnsiColor
    rw [hc16]
  | color256 n =>
    have h1 : n ≤ 255 := h
    have hc16 : deserializeColor16 (serializeAnsiColor (.color256 n)) = none := rfl
    have hc256 : deserializeColor256 (serializeAnsiColor (.color256 n)) =
        some (AnsiColor.color256 n) := by
      show Option.map AnsiColor.color256 (if n ≤ 255 then some n else none) =
        some (AnsiColor.color256 n)
      rw [if_pos h1]
      rfl
    unfold deserializeAnsiColor
    rw [hc16, hc256]
  | rgb r g b =>
    have h1 : r ≤ 255 := h.1
    have h2 : g ≤ 255 := h.2.1
    have h3 : b ≤ 255 := h.2.2
    have hc16 : deserializeColor16 (serializeAnsiColor (.rgb r g b)) = none := rfl
    have hc256 : deserializeColor256 (serializeAnsiColor (.rgb r g b)) = none := rfl
    have hrgb : deserializeRgb (serializeAnsiColor (.rgb r g b)) =
        some (AnsiColor.rgb r g b) := by
      show (match (if r ≤ 255 then some r else none), (if g ≤ 255 then some g else none),
          (if b ≤ 255 then some b else none) with
        | some r', some g', some b' => some (AnsiColor.rgb r' g' b')
        | _, _, _ => none) = some (AnsiColor.rgb r g b)
      rw [if_pos h1, if_pos h2, if_pos h3]
    unfold deserializeAnsiColor
    rw [hc16, hc256, hrgb]

/-- Style modes survive the round trip. -/
theorem styleMode_roundtrip (m : StyleMode) :
    deserializeStyleMode (serializeStyleMode m) = some m := by
  cases m <;> rfl

/-- Segment ids survive the round trip. -/
theorem segmentId_roundtrip (id : SegmentId) :
    deserializeSegmentId (serializeSegmentId id) = some id := by
  cases id <;> rfl

/-- Icon configurations survive the round trip. -/
theorem iconConfig_roundtrip (ic : IconConfig) :
    deserializeIconConfig (serializeIconConfig ic) = some ic := rfl

/-- Text style configurations survive the round trip. -/
theorem textStyleConfig_roundtrip (ts : TextStyleConfig) :
    deserializeTextStyleConfig (serializeTextStyleConfig ts) = some ts := rfl

/-- Color configurations survive the round trip (skipped `None` fields
come back as their defaults). -/
theorem colorConfig_roundtrip (cc : ColorConfig) (h : wfColorConfig cc) :
    deserializeColorConfig (serializeColorConfig cc) = some cc := by
  rcases cc with ⟨i, t, b⟩
  obtain ⟨hi, ht, hb⟩ := h
  cases i <;> cases t <;> cases b <;>
    simp_all [serializeColorConfig, deserializeColorConfig, serializeOptColor,
      deserializeOptColor, jLookup, List.lookup, wfOptColor, ansiColor_roundtrip]

/-- Per-segment configurations survive the round trip (for any serde
default entry, which is never consulted since every field is present). -/
theorem segmentItemConfig_roundtrip (dflt : SegmentItemConfig) (sc : SegmentItemConfig)
    (h : wfSegmentItemConfig sc) :
    deserializeSegmentItemConfig dflt (serializeSegmentItemConfig sc) = some sc := by
  rcases sc with ⟨id, en, icon, colors, styles, options⟩
  cases options with
  | nil =>
    simp [serializeSegmentItemConfig, deserializeSegmentItemConfig, jLookup, List.lookup,
      segmentId_roundtrip, iconConfig_roundtrip, textStyleConfig_roundtrip,
      colorConfig_roundtrip colors h]
  | cons o os =>
    simp [serializeSegmentItemConfig, deserializeSegmentItemConfig, jLookup, List.lookup,
      segmentId_roundtrip, iconConfig_roundtrip, textStyleConfig_roundtrip,
      colorConfig_roundtrip colors h]

/-- The five-segment configuration block survives the round trip. -/
theorem segmentsConfig_roundtrip (sg : SegmentsConfig)
    (hm : wfSegmentItemConfig sg.model) (hd : wfSegmentItemConfig sg.directory)
    (hg : wfSegmentItemConfig sg.git) (hc : wfSegmentItemConfig sg.context)
    (hu : wfSegmentItemConfig sg.usage) :
    deserializeSegmentsConfig (serializeSegmentsConfig sg) = some sg := by
  rcases sg with ⟨m, d, g, c, u⟩
  simp [serializeSegmentsConfig, deserializeSegmentsConfig, jLookup, List.lookup,
    segmentItemConfig_roundtrip _ m hm, segmentItemConfig_roundtrip _ d hd,
    segmentItemConfig_roundtrip _ g hg, segmentItemConfig_roundtrip _ c hc,
    segmentItemConfig_roundtrip _ u hu]

/-- Full configurations survive the round trip. -/
theorem cxLineConfig_roundtrip (cfg : CxLineConfig) (h : wfCxLineConfig cfg) :
    deserializeCxLineConfig (serializeCxLineConfig cfg) = some cfg := by
  rcases cfg with ⟨en, th, st, sep, sg⟩
  obtain ⟨h1, h2, h3, h4, h5⟩ := h
  simp [serializeCxLineConfig, deserializeCxLineConfig, jLookup, List.lookup,
    styleMode_roundtrip, segmentsConfig_roundtrip sg h1 h2 h3 h4 h5]

/-- C6: serializing then deserializing any `AnsiColor` with `u8`
payloads yields an equal value — the untagged variants are
disambiguated by their field names (`c16` / `c256` / `r`,`g`,`b`) — and
serializing then deserializing a full `CxLineConfig` yields the same
configuration, which therefore renders an identical span sequence for
the same input segment data. -/
theorem serde_roundtrip_spec :
    (∀ c : AnsiColor, wfAnsiColor c → deserializeAnsiColor (serializeAnsiColor c) = some c) ∧
    (∀ cfg : CxLineConfig, wfCxLineConfig cfg →
      deserializeCxLineConfig (serializeCxLineConfig cfg) = some cfg) ∧
    (∀ (cfg cfg' : CxLineConfig) (segs : List (SegmentId × SegmentData)),
      wfCxLineConfig cfg →
      deserializeCxLineConfig (serializeCxLineConfig cfg) = some cfg' →
      render_line cfg' segs = render_line cfg segs) := by
  refine ⟨ansiColor_roundtrip, cxLineConfig_roundtrip, ?_⟩
  intro cfg cfg' segs hwf hd
  rw [cxLineConfig_roundtrip cfg hwf] at hd
  rw [Option.some.inj hd]

/-- C6 witness: a concrete configuration (NerdFont style, one colored
16-color payload set) survives the round trip. -/
theorem serde_roundtrip_spec_witness :
    deserializeCxLineConfig (serializeCxLineConfig iconConfig) = some iconConfig :=
  serde_roundtrip_spec.2.1 iconConfig (by decide)
